import Mathlib

/-!
# Verification of the rail-mind conflict-management core

A shallow embedding, in Lean 4, of the parts of the rail-mind repository that
the specification's testable claims are about:

* the resolution normalizer and ranking parser
  (`agents/resolution-agent/llm_as_a _judge/llm_judge_fair.py`),
* the context updater and its keyword fallback
  (`backend/context_update/context_updater.py`),
* the mock tick-engine simulator
  (`agents/detection-agent/deterministic-detection/simulator.py`).

Python floats and ints are modelled as `ℚ` / `ℤ` (exact arithmetic; the
claims under study are formulae and orderings, not rounding behaviour).
Python's `random` module is modelled as an oracle `g : ℕ → ℚ` of draws in
`[0,1)` consumed one at a time through a cursor threaded in the state; the
derived primitives (`uniform`, `randint`, `choice`) are defined from single
draws.  Every property proved below is quantified over the oracle, hence
holds in particular for the stream the seeded Mersenne Twister produces.

The simulator imports `state_tracker.py` and `models.py`, which are not part
of the repository snapshot; the tracker operations and the data model are
modelled from the specification (§3, §4.B) and are marked
`Modelled from the spec:` in their doc comments.
-/

/-- Clamp a rational into `[0,1]`: Python's `max(0.0, min(1.0, x))`. -/
def clamp01 (x : ℚ) : ℚ := max 0 (min 1 x)

theorem clamp01_nonneg (x : ℚ) : 0 ≤ clamp01 x := le_max_left 0 _

theorem clamp01_le_one (x : ℚ) : clamp01 x ≤ 1 := by
  unfold clamp01
  have h1 : min 1 x ≤ 1 := min_le_left 1 x
  exact max_le (by norm_num) h1

theorem clamp01_mono {a b : ℚ} (h : a ≤ b) : clamp01 a ≤ clamp01 b := by
  unfold clamp01
  exact max_le_max le_rfl (min_le_min le_rfl h)

/-!
## Resolution Normalizer (`llm_judge_fair.py`, class `ResolutionNormalizer`)
-/

/-- The metrics dictionary handed to `normalize_agent2_resolution`.
`fitness` and `total_delay_min` are read by direct indexing in the source
(`metrics['fitness']`), so they are required; the remaining keys are read
with `.get` and a default, so they are optional. -/
structure SolverMetrics where
  fitness : ℚ
  total_delay_min : ℚ
  original_delay_min : Option ℚ
  num_actions : Option ℚ
  passenger_impact : Option ℚ
  propagation_depth : Option ℤ
  recovery_smoothness : Option ℚ
  deriving Repr, DecidableEq

/-- The numeric projection of `NormalizedResolution` (`llm_judge_fair.py`).
The synthesized text fields (actions, reasoning, expected outcome, side
effects) and `raw_data` are not modelled: no claim under verification
mentions them. -/
structure NormalizedResolution where
  resolution_id : String
  source_agent : String
  safety_score : ℚ
  efficiency_score : ℚ
  feasibility_score : ℚ
  overall_fitness : ℚ
  estimated_delay_min : ℚ
  deriving Repr, DecidableEq

/-- `ResolutionNormalizer._calculate_efficiency_score`. -/
def calculateEfficiencyScore (final_delay original_delay : ℚ) : ℚ :=
  if original_delay = 0 then 1/2
  else
    let improvement := (original_delay - final_delay) / original_delay
    clamp01 (1/2 + improvement * (1/2))

/-- The per-solver safety baseline table in
`ResolutionNormalizer._calculate_safety_score` (default `0.80`). -/
def safetyBySolver (solver_name : String) : ℚ :=
  if solver_name = ("lns") then 0.90
  else if solver_name = ("simulated_annealing") then 0.85
  else if solver_name = ("genetic_algorithm") then 0.85
  else if solver_name = ("nsga2") then 0.88
  else if solver_name = ("greedy") then 0.80
  else 0.80

/-- `ResolutionNormalizer._calculate_safety_score`. -/
def calculateSafetyScore (solver_name : String) (m : SolverMetrics) : ℚ :=
  let base := safetyBySolver solver_name
  let base := if m.propagation_depth.getD 1 = 0 then base + 0.05 else base
  let smoothness := m.recovery_smoothness.getD 0
  let base := if smoothness > 0.9 then base + 0.05 else base
  min 1 base

/-- The per-solver feasibility baseline table in
`ResolutionNormalizer._calculate_feasibility_score` (default `0.75`). -/
def feasibilityBySolver (solver_name : String) : ℚ :=
  if solver_name = ("greedy") then 0.90
  else if solver_name = ("lns") then 0.85
  else if solver_name = ("simulated_annealing") then 0.80
  else if solver_name = ("genetic_algorithm") then 0.80
  else if solver_name = ("nsga2") then 0.75
  else 0.75

/-- `ResolutionNormalizer._calculate_feasibility_score`.  The source reads
`metrics.get('fitness', 0.5)`; at every call site `fitness` is present
(`normalize_agent2_resolution` has already indexed it), so the required
field of `SolverMetrics` is used directly. -/
def calculateFeasibilityScore (solver_name : String) (m : SolverMetrics) : ℚ :=
  let num_actions := m.num_actions.getD 2
  let action_penalty := num_actions * 0.05
  let base := feasibilityBySolver solver_name
  let feasibility := base - action_penalty
  let feasibility := if m.fitness > 0.7 then feasibility + 0.05 else feasibility
  clamp01 feasibility

/-- `ResolutionNormalizer.normalize_agent2_resolution`, numeric fields. -/
def normalizeAgent2Resolution (solver_name : String) (m : SolverMetrics) :
    NormalizedResolution :=
  let total_delay_min := m.total_delay_min
  let original_delay_min := m.original_delay_min.getD (total_delay_min * 1.1)
  { resolution_id := ("agent2_") ++ solver_name
    source_agent := ("Agent 2 (Mathematical Solver)")
    safety_score := calculateSafetyScore solver_name m
    efficiency_score := calculateEfficiencyScore total_delay_min original_delay_min
    feasibility_score := calculateFeasibilityScore solver_name m
    overall_fitness := m.fitness
    estimated_delay_min := total_delay_min }

/-- The fields of an agent-1 (verbose) resolution that feed the numeric part
of `normalize_agent1_resolution`; the scores are read with `.get` and
default `0.5`. -/
structure Agent1Resolution where
  resolution_id : String
  safety_score : Option ℚ
  efficiency_score : Option ℚ
  feasibility_score : Option ℚ
  confidence_score : Option ℚ
  estimated_delay_reduction_sec : Option ℚ
  deriving Repr, DecidableEq

/-- `ResolutionNormalizer.normalize_agent1_resolution`, numeric fields.
The self-reported scores are kept verbatim (`res.get('safety_score', 0.5)`
and so on); `estimated_delay_min = abs(… or 0)/60`. -/
def normalizeAgent1Resolution (res : Agent1Resolution) : NormalizedResolution :=
  { resolution_id := res.resolution_id
    source_agent := ("Agent 1 (Hybrid/Historical)")
    safety_score := res.safety_score.getD 0.5
    efficiency_score := res.efficiency_score.getD 0.5
    feasibility_score := res.feasibility_score.getD 0.5
    overall_fitness := res.confidence_score.getD 0.5
    estimated_delay_min := |res.estimated_delay_reduction_sec.getD 0| / 60 }

/-!
### Claim C3 — normalized score bounds and the efficiency formula
-/

theorem safetyBySolver_bounds (s : String) :
    0.8 ≤ safetyBySolver s ∧ safetyBySolver s ≤ 0.9 := by
  unfold safetyBySolver
  split_ifs <;> norm_num

theorem calcSafety_bounds (s : String) (m : SolverMetrics) :
    0 ≤ calculateSafetyScore s m ∧ calculateSafetyScore s m ≤ 1 := by
  obtain ⟨h1, _⟩ := safetyBySolver_bounds s
  unfold calculateSafetyScore
  constructor
  · refine le_min (by norm_num) ?_
    split_ifs <;> linarith
  · exact min_le_left _ _

theorem calcEff_bounds (f o : ℚ) :
    0 ≤ calculateEfficiencyScore f o ∧ calculateEfficiencyScore f o ≤ 1 := by
  unfold calculateEfficiencyScore
  split_ifs
  · norm_num
  · exact ⟨clamp01_nonneg _, clamp01_le_one _⟩

theorem calcFeas_bounds (s : String) (m : SolverMetrics) :
    0 ≤ calculateFeasibilityScore s m ∧ calculateFeasibilityScore s m ≤ 1 := by
  unfold calculateFeasibilityScore
  exact ⟨clamp01_nonneg _, clamp01_le_one _⟩

theorem calcEff_formula (f o : ℚ) :
    calculateEfficiencyScore f o = clamp01 (1/2 + (1/2) * ((o - f) / o)) := by
  unfold calculateEfficiencyScore
  split_ifs with h
  · subst h
    norm_num [clamp01]
  · ring_nf

theorem calcEff_mono (o f1 f2 : ℚ) (ho : 0 ≤ o) (h : f2 ≤ f1) :
    calculateEfficiencyScore f1 o ≤ calculateEfficiencyScore f2 o := by
  unfold calculateEfficiencyScore
  split_ifs with hz
  · exact le_refl _
  · apply clamp01_mono
    have hpos : 0 < o := lt_of_le_of_ne ho (Ne.symm hz)
    have hdiv : (o - f1) / o ≤ (o - f2) / o :=
      (div_le_div_right hpos).mpr (by linarith)
    linarith

/-- C3, counterexample: the claim "all four normalized scores lie in `[0,1]`"
is false — `overall_fitness` is the solver's `fitness` as provided, with no
clamping; a metrics dictionary with `fitness = 2` yields a normalized
resolution whose `overall_fitness` is `2 > 1`. -/
theorem C3_counterexample :
    (normalizeAgent2Resolution ("greedy")
      { fitness := 2, total_delay_min := 4, original_delay_min := some 5,
        num_actions := some 2, passenger_impact := none,
        propagation_depth := some 0,
        recovery_smoothness := some 1 }).overall_fitness = 2 ∧
    ¬ ((normalizeAgent2Resolution ("greedy")
      { fitness := 2, total_delay_min := 4, original_delay_min := some 5,
        num_actions := some 2, passenger_impact := none,
        propagation_depth := some 0,
        recovery_smoothness := some 1 }).overall_fitness ≤ 1) := by
  constructor
  · rfl
  · norm_num [normalizeAgent2Resolution]

/-- C3, amended: on the agent-2 solver path the three *computed* scores
(safety, efficiency, feasibility) lie in `[0,1]`; `overall_fitness` equals
the provided `fitness` unclamped (and the agent-1 path keeps the
self-reported scores verbatim, default `0.5`); the efficiency score equals
`clamp(0.5 + 0.5·(original−final)/original, 0, 1)` and, for a fixed
non-negative `original_delay`, is monotone non-decreasing in the delay
improvement `original_delay − final_delay`. -/
theorem C3_normalizer_scores (solver : String) (m : SolverMetrics)
    (r : Agent1Resolution) (f o f1 f2 o2 : ℚ)
    (ho : 0 ≤ o2) (hf : f2 ≤ f1) :
    (0 ≤ (normalizeAgent2Resolution solver m).safety_score ∧
      (normalizeAgent2Resolution solver m).safety_score ≤ 1) ∧
    (0 ≤ (normalizeAgent2Resolution solver m).efficiency_score ∧
      (normalizeAgent2Resolution solver m).efficiency_score ≤ 1) ∧
    (0 ≤ (normalizeAgent2Resolution solver m).feasibility_score ∧
      (normalizeAgent2Resolution solver m).feasibility_score ≤ 1) ∧
    (normalizeAgent2Resolution solver m).overall_fitness = m.fitness ∧
    (normalizeAgent2Resolution solver m).efficiency_score =
      calculateEfficiencyScore m.total_delay_min
        (m.original_delay_min.getD (m.total_delay_min * 1.1)) ∧
    (normalizeAgent1Resolution r).safety_score = r.safety_score.getD (1/2) ∧
    (normalizeAgent1Resolution r).overall_fitness = r.confidence_score.getD (1/2) ∧
    calculateEfficiencyScore f o = clamp01 (1/2 + (1/2) * ((o - f) / o)) ∧
    calculateEfficiencyScore f1 o2 ≤ calculateEfficiencyScore f2 o2 := by
  refine ⟨?_, ?_, ?_, rfl, rfl, ?_, ?_, calcEff_formula f o, calcEff_mono o2 f1 f2 ho hf⟩
  · exact calcSafety_bounds solver m
  · exact calcEff_bounds _ _
  · exact calcFeas_bounds solver m
  · norm_num [normalizeAgent1Resolution]
  · norm_num [normalizeAgent1Resolution]

/-- Witness for `C3_normalizer_scores` at a concrete input. -/
theorem C3_normalizer_scores_witness :
    (0:ℚ) ≤ 4 ∧ (2:ℚ) ≤ 3 ∧
    calculateEfficiencyScore 3 4 ≤ calculateEfficiencyScore 2 4 := by
  refine ⟨by norm_num, by norm_num, ?_⟩
  exact (C3_normalizer_scores ("greedy")
    { fitness := 1, total_delay_min := 4, original_delay_min := some 5,
      num_actions := some 2, passenger_impact := none,
      propagation_depth := some 0, recovery_smoothness := some 1 }
    { resolution_id := ("r1"), safety_score := none, efficiency_score := none,
      feasibility_score := none, confidence_score := none,
      estimated_delay_reduction_sec := none }
    3 4 3 2 4 (by norm_num) (by norm_num)).2.2.2.2.2.2.2.2

/-!
## Judge ranking parser (`llm_judge_fair.py`, `LLMJudge._parse_rankings`)

The three extraction methods are transcribed from the regexes
`r'```json\s*(.*?)\s*```'`, `r'```\s*(.*?)\s*```'` and `r'\[.*\]'`
(all with `re.DOTALL`), and `json.loads` is modelled by a JSON validity
checker following CPython's pure-python scanner (strict mode, `allow_nan`
defaults, whitespace `[ \t\n\r]`).  With a lazy group, the fenced-block
regexes match from the first opening marker to the earliest closing fence,
with surrounding whitespace stripped out of the group; the greedy
`r'\[.*\]'` matches from the first `'['` to the last `']'` of the text.
-/

/-- Python's `\s` class (used only for the `\s*` trimming in the fenced
regexes): space, tab, newline, carriage return, vertical tab, form feed. -/
def isPySpace (c : Char) : Bool :=
  c == ' ' || c == '\t' || c == '\n' || c == '\r' || c.toNat == 11 || c.toNat == 12

/-- Strip `\s*` from both ends, as the lazy fenced-block regexes do. -/
def trimChars (l : List Char) : List Char :=
  ((l.dropWhile isPySpace).reverse.dropWhile isPySpace).reverse

/-- Index of the first occurrence of `needle` in `hay`. -/
def findSub (needle : List Char) : List Char → Option ℕ
  | [] => if needle = [] then some 0 else none
  | c :: t =>
    if needle.isPrefixOf (c :: t) then some 0
    else (findSub needle t).map (· + 1)

def fenceJsonMarker : List Char := ("```json").toList

def fenceMarker : List Char := ("```").toList

/-- Method 1: `re.search(r'```json\s*(.*?)\s*```', text, re.DOTALL)`. -/
def extractFencedJson (s : List Char) : Option (List Char) :=
  match findSub fenceJsonMarker s with
  | none => none
  | some i =>
    let rest := s.drop (i + fenceJsonMarker.length)
    match findSub fenceMarker rest with
    | none => none
    | some j => some (trimChars (rest.take j))

/-- Method 2: `re.search(r'```\s*(.*?)\s*```', text, re.DOTALL)`. -/
def extractFenced (s : List Char) : Option (List Char) :=
  match findSub fenceMarker s with
  | none => none
  | some i =>
    let rest := s.drop (i + fenceMarker.length)
    match findSub fenceMarker rest with
    | none => none
    | some j => some (trimChars (rest.take j))

/-- Method 3: `re.search(r'\[.*\]', text, re.DOTALL)` — the greedy `.*`
makes this the span from the first `'['` to the last `']'`. -/
def bracketSpan (s : List Char) : Option (List Char) :=
  match s.findIdx? (· == '['), (s.reverse.findIdx? (· == ']')).map (s.length - 1 - ·) with
  | some i, some j => if i < j then some ((s.drop i).take (j - i + 1)) else none
  | _, _ => none

/-- JSON whitespace as skipped by CPython's `json` module. -/
def skipWs (l : List Char) : List Char :=
  l.dropWhile (fun c => c == ' ' || c == '\t' || c == '\n' || c == '\r')

def isHexDigit (c : Char) : Bool :=
  c.isDigit || ('a' ≤ c && c ≤ 'f') || ('A' ≤ c && c ≤ 'F')

/-- The single-character escapes accepted inside a JSON string. -/
def jsonEscapes : List Char := ("\"\\/bfnrt").toList

/-- Scan a JSON string body (the opening quote already consumed); returns
the remainder after the closing quote.  Strict mode: raw control
characters below `0x20` are rejected.  The fuel argument only forces
structural recursion; every step consumes at least one character, so
`length + 1` fuel never runs out. -/
def jsonStringRest : ℕ → List Char → Option (List Char)
  | 0, _ => none
  | _ + 1, [] => none
  | _ + 1, '"' :: t => some t
  | fuel + 1, '\\' :: rest =>
    match rest with
    | 'u' :: a :: b :: c :: d :: t =>
      if isHexDigit a && isHexDigit b && isHexDigit c && isHexDigit d then
        jsonStringRest fuel t
      else none
    | e :: t => if jsonEscapes.contains e then jsonStringRest fuel t else none
    | [] => none
  | fuel + 1, c :: t => if 32 ≤ c.toNat then jsonStringRest fuel t else none

/-- A JSON string body with enough fuel for its whole length. -/
def jsonStr (l : List Char) : Option (List Char) :=
  jsonStringRest (l.length + 1) l

def dropDigits (l : List Char) : List Char := l.dropWhile Char.isDigit

/-- The integer part of CPython json's `NUMBER_RE`: `-?(0|[1-9]\d*)`
(sign handled by the caller). -/
def parseIntPart : List Char → Option (List Char)
  | [] => none
  | '0' :: t => some t
  | c :: t => if c.isDigit then some (dropDigits t) else none

/-- The optional fraction group `(\.\d+)?`. -/
def parseFracPart (l : List Char) : List Char :=
  match l with
  | '.' :: u =>
    match u with
    | c :: _ => if c.isDigit then dropDigits u else l
    | [] => l
  | _ => l

/-- The optional exponent group `([eE][-+]?\d+)?`. -/
def parseExpPart (l : List Char) : List Char :=
  match l with
  | c :: u =>
    if c == 'e' || c == 'E' then
      let u2 := match u with
        | s :: v => if s == '+' || s == '-' then v else u
        | [] => u
      match u2 with
      | d :: _ => if d.isDigit then dropDigits u2 else l
      | [] => l
    else l
  | [] => l

/-- A JSON number per `NUMBER_RE`; returns the remainder after the match. -/
def parseNumber (l : List Char) : Option (List Char) :=
  let core := match l with
    | '-' :: t => parseIntPart t
    | _ => parseIntPart l
  match core with
  | none => none
  | some t => some (parseExpPart (parseFracPart t))

mutual

/-- Scan one JSON value (CPython `scanner.py` `_scan_once`; whitespace is
skipped by the caller, exactly as in CPython).  Returns the remainder. -/
def jsonVal : ℕ → List Char → Option (List Char)
  | 0, _ => none
  | Nat.succ fuel, l =>
    match l with
    | '"' :: t => jsonStr t
    | '{' :: t => jsonObjRest fuel t
    | '[' :: t => jsonArrRest fuel t
    | _ =>
      if ("null").toList.isPrefixOf l then some (l.drop 4)
      else if ("true").toList.isPrefixOf l then some (l.drop 4)
      else if ("false").toList.isPrefixOf l then some (l.drop 5)
      else
        match parseNumber l with
        | some r => some r
        | none =>
          if ("NaN").toList.isPrefixOf l then some (l.drop 3)
          else if ("Infinity").toList.isPrefixOf l then some (l.drop 8)
          else if ("-Infinity").toList.isPrefixOf l then some (l.drop 9)
          else none

/-- The remainder of a JSON array, the opening `'['` already consumed. -/
def jsonArrRest : ℕ → List Char → Option (List Char)
  | 0, _ => none
  | Nat.succ fuel, t =>
    let t1 := skipWs t
    match t1 with
    | ']' :: u => some u
    | _ => jsonArrItems fuel t1

/-- Array elements separated by `','`, ended by `']'`. -/
def jsonArrItems : ℕ → List Char → Option (List Char)
  | 0, _ => none
  | Nat.succ fuel, l =>
    match jsonVal fuel l with
    | none => none
    | some r =>
      let r1 := skipWs r
      match r1 with
      | ',' :: u => jsonArrItems fuel (skipWs u)
      | ']' :: u => some u
      | _ => none

/-- The remainder of a JSON object, the opening `'{'` already consumed. -/
def jsonObjRest : ℕ → List Char → Option (List Char)
  | 0, _ => none
  | Nat.succ fuel, t =>
    let t1 := skipWs t
    match t1 with
    | '}' :: u => some u
    | _ => jsonObjItems fuel t1

/-- Object members `"key": value` separated by `','`, ended by `'}'`. -/
def jsonObjItems : ℕ → List Char → Option (List Char)
  | 0, _ => none
  | Nat.succ fuel, l =>
    match l with
    | '"' :: t =>
      match jsonStr t with
      | none => none
      | some r =>
        let r1 := skipWs r
        match r1 with
        | ':' :: u =>
          match jsonVal fuel (skipWs u) with
          | none => none
          | some v =>
            let v1 := skipWs v
            match v1 with
            | ',' :: w => jsonObjItems fuel (skipWs w)
            | '}' :: w => some w
            | _ => none
        | _ => none
    | _ => none

end

/-- `json.loads` succeeds on this text: one value, then only whitespace. -/
def jsonValid (l : List Char) : Bool :=
  match jsonVal (10 * l.length + 10) (skipWs l) with
  | some r => (skipWs r).isEmpty
  | none => false

/-- The extraction chain of `_parse_rankings`: fenced JSON block, then any
fenced block, then the greedy bracket span. -/
def parseRankingsExtract (s : List Char) : Option (List Char) :=
  match extractFencedJson s with
  | some j => some j
  | none =>
    match extractFenced s with
    | some j => some j
    | none => bracketSpan s

/-- `LLMJudge._parse_rankings`, up to `json.loads`: either the extracted,
valid JSON text (which then flows into the enrichment loop and becomes a
ranking) or a raised `ValueError`.  The judgment text is its character
list.  The enrichment of the parsed array with full resolutions is not
modelled: no claim mentions it. -/
def parseRankings (s : List Char) : Except String (List Char) :=
  match parseRankingsExtract s with
  | none => Except.error ("Could not parse LLM judgment - no JSON found")
  | some j =>
    if jsonValid j then Except.ok j
    else Except.error ("Could not parse LLM judgment - invalid JSON")

def exceptOk {ε α : Type} : Except ε α → Bool
  | Except.ok _ => true
  | Except.error _ => false

/-- Modelled from the spec: "the first top-level JSON array" — scan left to
right for the first position at which a JSON array parses; return it. -/
def firstArrayFrom : List Char → Option (List Char)
  | [] => none
  | '[' :: t =>
    match jsonArrRest (10 * t.length + 10) t with
    | some r => some (('[' :: t).take (('[' :: t).length - r.length))
    | none => firstArrayFrom t
  | _ :: t => firstArrayFrom t

/-- Modelled from the spec: the parser the claim describes — fenced JSON,
then any fenced block, then the *first top-level JSON array*. -/
def parseRankingsClaimed (s : List Char) : Except String (List Char) :=
  let ext :=
    match extractFencedJson s with
    | some j => some j
    | none =>
      match extractFenced s with
      | some j => some j
      | none => firstArrayFrom s
  match ext with
  | none => Except.error ("Could not parse LLM judgment - no JSON found")
  | some j =>
    if jsonValid j then Except.ok j
    else Except.error ("Could not parse LLM judgment - invalid JSON")

/-!
### Claim C7 — ranking-parser extraction order and loud failure
-/

/-- C7, counterexample: the third extraction method is the *greedy* span
from the first `'['` to the last `']'`, not "the first top-level JSON
array".  On `"no fences here [1] and [2]"` the claimed parser extracts the
valid array `[1]` and succeeds, while `_parse_rankings` extracts
`"[1] and [2]"`, which is not valid JSON, and raises. -/
theorem C7_counterexample :
    parseRankings (("no fences here [1] and [2]").toList) ≠
      parseRankingsClaimed (("no fences here [1] and [2]").toList) ∧
    parseRankingsClaimed (("no fences here [1] and [2]").toList) =
      Except.ok (("[1]").toList) ∧
    parseRankings (("no fences here [1] and [2]").toList) =
      Except.error ("Could not parse LLM judgment - invalid JSON") := by
  refine ⟨?_, rfl, rfl⟩
  intro h
  rw [show parseRankings (("no fences here [1] and [2]").toList) =
      Except.error ("Could not parse LLM judgment - invalid JSON") from rfl] at h
  rw [show parseRankingsClaimed (("no fences here [1] and [2]").toList) =
      Except.ok (("[1]").toList) from rfl] at h
  exact Except.noConfusion h

/-- C7, amended: the parser tries exactly, in order, a ```json fenced
block, then any fenced block, then the greedy span from the first `'['` to
the last `']'` (not the first top-level JSON array); if no method extracts
anything, or the extracted text is not valid JSON, it raises an error
instead of returning a ranking. -/
theorem C7_parse_rankings (s : List Char) :
    (∀ j, extractFencedJson s = some j →
        parseRankingsExtract s = some j) ∧
    (extractFencedJson s = none →
      ∀ j, extractFenced s = some j →
        parseRankingsExtract s = some j) ∧
    (extractFencedJson s = none → extractFenced s = none →
      parseRankingsExtract s = bracketSpan s) ∧
    (parseRankingsExtract s = none →
      parseRankings s =
        Except.error ("Could not parse LLM judgment - no JSON found")) ∧
    (∀ j, parseRankingsExtract s = some j → jsonValid j = false →
      parseRankings s =
        Except.error ("Could not parse LLM judgment - invalid JSON")) ∧
    (∀ j, parseRankings s = Except.ok j →
      parseRankingsExtract s = some j ∧ jsonValid j = true) := by
  refine ⟨?_, ?_, ?_, ?_, ?_, ?_⟩
  · intro j h
    simp [parseRankingsExtract, h]
  · intro h1 j h2
    simp [parseRankingsExtract, h1, h2]
  · intro h1 h2
    simp [parseRankingsExtract, h1, h2]
  · intro h
    simp [parseRankings, h]
  · intro j h hv
    simp [parseRankings, h, hv]
  · intro j h
    unfold parseRankings at h
    cases hE : parseRankingsExtract s with
    | none => rw [hE] at h; exact Except.noConfusion h
    | some c =>
      rw [hE] at h
      have h2 : (if jsonValid c = true then Except.ok c
          else (Except.error ("Could not parse LLM judgment - invalid JSON") :
            Except String (List Char))) = Except.ok j := h
      by_cases hv : jsonValid c = true
      · rw [if_pos hv] at h2
        cases h2
        exact ⟨rfl, hv⟩
      · rw [if_neg hv] at h2
        exact Except.noConfusion h2

/-- Witness for `C7_parse_rankings`: a fenced JSON response parses. -/
theorem C7_parse_rankings_witness :
    parseRankingsExtract (("```json" ++ "\n[1]\n" ++ "```").toList) =
      some (("[1]").toList) ∧
    jsonValid (("[1]").toList) = true :=
  (C7_parse_rankings (("```json" ++ "\n[1]\n" ++ "```").toList)).2.2.2.2.2
    (("[1]").toList) rfl

/-!
## Context Updater (`backend/context_update/context_updater.py`)

The network context is a JSON document with top-level keys mapping either to
primitive values or to lists of objects (`trains`, `rails`, `stations`, per
the §6 snapshot schema); a train's `route` (and similar fields) is a list of
flat objects.  Python dicts are modelled as association lists with unique
keys (JSON objects cannot carry duplicates).  Where the Python code would
raise on schema-violating input (indexing a missing `source`/`station_name`,
iterating a non-list), the model treats the item as non-matching; every such
Python exception propagates out of `update_context` as a hard failure, which
is also the endpoint of the model's `Except.error`, so no claim's verdict
depends on the difference (noted per definition).
-/

/-- A primitive JSON value. -/
inductive PVal where
  | num (q : ℚ)
  | str (s : String)
  | boolv (b : Bool)
  | nullv
  deriving DecidableEq, Repr

/-- A flat JSON object (a route stop, for instance). -/
abbrev PObj := List (String × PVal)

/-- A field value inside a train/rail object: a primitive, or a list of
flat objects (a train's `route`, a rail's `historical_incidents`). -/
inductive CVal where
  | prim (p : PVal)
  | objs (l : List PObj)
  deriving DecidableEq, Repr

/-- A train or rail object. -/
abbrev Obj := List (String × CVal)

/-- A top-level context value: a primitive or a list of objects. -/
inductive TVal where
  | prim (p : PVal)
  | rows (l : List Obj)
  deriving DecidableEq, Repr

/-- The network context (the JSON document). -/
abbrev Ctx := List (String × TVal)

/-- The keys of an object, in insertion order. -/
def objKeys {α : Type} (o : List (String × α)) : List String := o.map (·.1)

/-- Python's `set(keys1) == set(keys2)`. -/
def keySetEqB (a b : List String) : Bool :=
  a.all (b.contains ·) && b.all (a.contains ·)

/-- `context.get(k, [])` where the schema makes the value a list of
objects; a present but non-list value (over which Python's `for` would
raise) is treated as the empty list. -/
def getRows (ctx : Ctx) (k : String) : List Obj :=
  match ctx.lookup k with
  | some (TVal.rows l) => l
  | _ => []

/-- Replace the rows under key `k` (the updater mutates the rail objects
held inside `context["rails"]` in place; here the list is rebuilt). -/
def setRows (ctx : Ctx) (k : String) (rows : List Obj) : Ctx :=
  ctx.map (fun p => if p.1 = k then (p.1, TVal.rows rows) else p)

/-- One entry of a `rail_updates[...].updates` list; `field` and
`operation` are read by direct indexing in the source, `value` with
`.get` (absent ⇒ Python `None`). -/
structure FieldUpdate where
  field : String
  operation : String
  value : Option CVal
  deriving DecidableEq, Repr

/-- One entry of `rail_updates` (`source`/`target` read with `.get`). -/
structure RailUpdate where
  source : Option PVal
  target : Option PVal
  updates : List FieldUpdate
  deriving DecidableEq, Repr

/-- One entry of `train_updates`; `_apply_train_update` only logs, so only
the identifying field is modelled. -/
structure TrainUpdate where
  train_id : Option PVal
  deriving DecidableEq, Repr

/-- One entry of `global_updates`, as produced by the LLM or the keyword
fallback (`parameter`, `operation`, `value` read with `.get`). -/
structure GlobalUpdate where
  description : String
  parameter : Option String
  operation : Option String
  value : Option CVal
  deriving DecidableEq, Repr

/-- The update-instruction dictionary
`{train_updates, rail_updates, global_updates}`. -/
structure UpdateInstructions where
  train_updates : List TrainUpdate
  rail_updates : List RailUpdate
  global_updates : List GlobalUpdate
  deriving DecidableEq, Repr

/-- `ContextUpdater._apply_operation`.  Python guards with
`isinstance(current_value, (int, float))`; the model applies the arithmetic
when both operands are numbers and otherwise returns the current value
(the source's behaviour for a non-numeric current value; mixed-type
operands, where CPython would raise or repeat sequences, do not occur in
any claim). A `set` with an absent value stores Python `None`. -/
def applyOperation (current : CVal) (operation : String) (value : Option CVal) : CVal :=
  if operation = ("set") then value.getD (CVal.prim PVal.nullv)
  else if operation = ("multiply") then
    match current, value with
    | CVal.prim (PVal.num c), some (CVal.prim (PVal.num v)) => CVal.prim (PVal.num (c * v))
    | _, _ => current
  else if operation = ("add") then
    match current, value with
    | CVal.prim (PVal.num c), some (CVal.prim (PVal.num v)) => CVal.prim (PVal.num (c + v))
    | _, _ => current
  else if operation = ("subtract") then
    match current, value with
    | CVal.prim (PVal.num c), some (CVal.prim (PVal.num v)) => CVal.prim (PVal.num (c - v))
    | _, _ => current
  else current

/-- `rail[field] = _apply_operation(...)` guarded by `if field in rail`. -/
def applyFieldUpdate (rail : Obj) (u : FieldUpdate) : Obj :=
  if (objKeys rail).contains u.field then
    rail.map (fun p => if p.1 = u.field then (p.1, applyOperation p.2 u.operation u.value) else p)
  else rail

/-- The match `rail["source"] == source and rail["target"] == target` of
`_apply_rail_update` (a missing key, on which Python would raise, is
treated as non-matching). -/
def railMatchesUpdate (rail : Obj) (ru : RailUpdate) : Bool :=
  match rail.lookup ("source"), rail.lookup ("target"), ru.source, ru.target with
  | some s, some t, some s', some t' => s == CVal.prim s' && t == CVal.prim t'
  | _, _, _, _ => false

/-- `ContextUpdater._apply_rail_update`: every matching rail gets each
field update in order. -/
def applyRailUpdateCtx (ctx : Ctx) (ru : RailUpdate) : Ctx :=
  setRows ctx ("rails")
    ((getRows ctx ("rails")).map (fun rail =>
      if railMatchesUpdate rail ru then ru.updates.foldl applyFieldUpdate rail else rail))

/-- `train.get("route", [])` as a list of route stops. -/
def routeOf (train : Obj) : List PObj :=
  match train.lookup ("route") with
  | some (CVal.objs l) => l
  | _ => []

/-- `route[i]["station_name"]` (a missing key, on which Python would
raise, yields a never-matching `none`). -/
def stopName (stop : PObj) : Option PVal := stop.lookup ("station_name")

/-- The consecutive route-stop name pairs
`(route[i]["station_name"], route[i+1]["station_name"])`. -/
def consecutivePairs (route : List PObj) : List (Option PVal × Option PVal) :=
  (route.zip route.tail).map (fun p => (stopName p.1, stopName p.2))

/-- The direction-insensitive rail match of `_find_rails_for_trains`:
`(source, target)` equals the pair either way round. -/
def railMatchesPair (rail : Obj) (p : Option PVal × Option PVal) : Bool :=
  match p.1, p.2, rail.lookup ("source"), rail.lookup ("target") with
  | some a, some b, some s, some t =>
    (s == CVal.prim a && t == CVal.prim b) || (t == CVal.prim a && s == CVal.prim b)
  | _, _, _, _ => false

/-- `train["train_id"] in train_ids`. -/
def trainIdIn (train : Obj) (ids : List String) : Bool :=
  match train.lookup ("train_id") with
  | some (CVal.prim (PVal.str s)) => ids.contains s
  | _ => false

/-- The inner loop of `_find_rails_for_trains`: append each rail matching
the pair unless an equal rail is already collected. -/
def addMatchingRails (p : Option PVal × Option PVal) (rails : List Obj)
    (acc : List Obj) : List Obj :=
  rails.foldl (fun acc rail =>
    if railMatchesPair rail p = true ∧ rail ∉ acc then acc ++ [rail] else acc) acc

/-- The middle loop of `_find_rails_for_trains`: over consecutive pairs. -/
def addRailsForPairs (pairs : List (Option PVal × Option PVal))
    (rails : List Obj) (acc : List Obj) : List Obj :=
  pairs.foldl (fun acc p => addMatchingRails p rails acc) acc

/-- `ContextUpdater._find_rails_for_trains`. -/
def findRailsForTrains (ctx : Ctx) (train_ids : List String) : List Obj :=
  (getRows ctx ("trains")).foldl (fun acc train =>
    if trainIdIn train train_ids = true then
      addRailsForPairs (consecutivePairs (routeOf train)) (getRows ctx ("rails")) acc
    else acc) []

/-- `ContextUpdater._apply_global_update`.  Python appends object
references to `affected_rails` and mutates them; with value semantics the
rail at position `j` is mutated exactly when it is the first occurrence of
its value in the rails list and that value was collected. -/
def applyGlobalUpdate (ctx : Ctx) (gu : GlobalUpdate)
    (affected_trains : List String) : Ctx :=
  match gu.parameter with
  | none => ctx
  | some param =>
    let affected := findRailsForTrains ctx affected_trains
    let rails := getRows ctx ("rails")
    setRows ctx ("rails")
      (rails.mapIdx (fun j rail =>
        if rail ∈ affected ∧ rail ∉ rails.take j ∧ (objKeys rail).contains param = true then
          rail.map (fun p => if p.1 = param then
            (p.1, applyOperation p.2 (gu.operation.getD ("")) gu.value) else p)
        else rail))

/-- `ContextUpdater._apply_updates`: rail updates, then train updates
(logging only), then global updates. -/
def applyUpdates (ctx : Ctx) (instr : UpdateInstructions)
    (affected_trains : List String) : Ctx :=
  let ctx1 := instr.rail_updates.foldl applyRailUpdateCtx ctx
  let ctx2 := instr.train_updates.foldl (fun c _ => c) ctx1
  instr.global_updates.foldl (fun c gu => applyGlobalUpdate c gu affected_trains) ctx2

/-- The zipped per-element key-set check of `_validate_structure` for one
top-level list; the direct indexing `original["trains"]` means a missing
or non-list entry is a raised exception, here `false`. -/
def rowsKeySetsEqB (orig upd : Ctx) (k : String) : Bool :=
  match orig.lookup k, upd.lookup k with
  | some (TVal.rows a), some (TVal.rows b) =>
    (a.zip b).all (fun p => keySetEqB (objKeys p.1) (objKeys p.2))
  | _, _ => false

/-- `ContextUpdater._validate_structure`: top-level key sets, `trains`
and `rails` list lengths, per-element key sets. -/
def validateStructure (orig upd : Ctx) : Bool :=
  keySetEqB (objKeys orig) (objKeys upd) &&
  ((getRows orig ("trains")).length == (getRows upd ("trains")).length) &&
  rowsKeySetsEqB orig upd ("trains") &&
  ((getRows orig ("rails")).length == (getRows upd ("rails")).length) &&
  rowsKeySetsEqB orig upd ("rails")

/-- `ContextUpdater.update_context`.  The interpreter's output (the parsed
LLM instructions, or the keyword fallback when the LLM path raised) enters
as `instr`, so the theorem quantifies over every reachable instruction
set; `affected_trains` is `resolution["full_resolution"]["affected_trains"]`.
The source deep-copies the input before mutating, so the original context
value is never modified — immediate here, where the input is a value and
the only output is the validated copy or an error (no partial writes). -/
def updateContext (instr : UpdateInstructions) (affected_trains : List String)
    (original_context : Ctx) : Except String Ctx :=
  let updated := applyUpdates original_context instr affected_trains
  if validateStructure original_context updated then Except.ok updated
  else Except.error ("Structure changed!")

/-- `needle in haystack` on character lists. -/
def listContainsSub (needle : List Char) : List Char → Bool
  | [] => needle.isEmpty
  | c :: t => needle.isPrefixOf (c :: t) || listContainsSub needle t

/-- Python's `needle in hay` for strings. -/
def containsSub (needle hay : String) : Bool :=
  listContainsSub needle.toList hay.toList

/-- `str.lower()` (ASCII; the keyword matching only involves ASCII). -/
def pyToLower (s : String) : String := String.mk (s.data.map Char.toLower)

/-- A character matched by the `[-\s]` class. -/
def isSepChar (c : Char) : Bool := c == '-' || isPySpace c

/-- `re.search(r'(\d+)[-\s]*%', action)`: the value of the first digit run
that, after optional hyphens/whitespace, is followed by `'%'`. -/
def findPercentFrom : List Char → Option ℕ
  | [] => none
  | c :: t =>
    if c.isDigit then
      let run := (c :: t).takeWhile Char.isDigit
      let rest := ((c :: t).dropWhile Char.isDigit).dropWhile isSepChar
      match rest with
      | '%' :: _ => some (run.foldl (fun acc d => acc * 10 + (d.toNat - 48)) 0)
      | _ => findPercentFrom t
    else findPercentFrom t

/-- The keyword rules of
`ActionToParameterInterpreter._fallback_interpretation` for one action, in
source order: speed reduction (with optional percentage, default 15%),
dwell-time extension, speed restriction. -/
def fallbackRuleUpdates (action : String) : List GlobalUpdate :=
  let action_lower := pyToLower action
  let u1 :=
    if containsSub ("reduce speed") action_lower || containsSub ("speed reduction") action_lower then
      let reduction : ℚ :=
        match findPercentFrom action.toList with
        | some x => (x : ℚ) / 100
        | none => 0.15
      [{ description := ("Apply ") ++ toString (reduction * 100) ++ ("% speed reduction"),
         parameter := some ("max_speed_kmh"), operation := some ("multiply"),
         value := some (CVal.prim (PVal.num (1 - reduction))) }]
    else []
  let u2 :=
    if containsSub ("dwell time") action_lower || containsSub ("extend") action_lower then
      [{ description := ("Extend dwell time"),
         parameter := some ("travel_time_min"), operation := some ("add"),
         value := some (CVal.prim (PVal.num 1.5)) }]
    else []
  let u3 :=
    if containsSub ("speed restriction") action_lower || containsSub ("limit speed") action_lower then
      [{ description := ("Apply speed restriction"),
         parameter := some ("max_speed_kmh"), operation := some ("set"),
         value := some (CVal.prim (PVal.num 80)) }]
    else []
  u1 ++ u2 ++ u3

/-- `ActionToParameterInterpreter._fallback_interpretation`: empty train
and rail updates; per-action keyword rules appended in order. -/
def fallbackInterpretation (actions : List String) : UpdateInstructions :=
  { train_updates := []
    rail_updates := []
    global_updates := (actions.map fallbackRuleUpdates).join }

/-- `ActionToParameterInterpreter.interpret_actions`: the LLM path's
parsed instructions when the try block succeeded, otherwise the keyword
fallback.  The network call and JSON decoding are external effects whose
outcome enters as `llmInstructions`. -/
def interpretActions (llmInstructions : Option UpdateInstructions)
    (actions : List String) : UpdateInstructions :=
  match llmInstructions with
  | some u => u
  | none => fallbackInterpretation actions

/-!
### Claim C2 — structural identity of successful context updates
-/

theorem keySetEqB_iff {a b : List String} (h : keySetEqB a b = true) :
    ∀ k, k ∈ a ↔ k ∈ b := by
  unfold keySetEqB at h
  rw [Bool.and_eq_true] at h
  obtain ⟨h1, h2⟩ := h
  rw [List.all_eq_true] at h1 h2
  intro k
  constructor
  · intro hk
    simpa using h1 k hk
  · intro hk
    simpa using h2 k hk

theorem rowsKeySetsEq_prop {orig upd : Ctx} {k : String}
    (h : rowsKeySetsEqB orig upd k = true) :
    ∀ p ∈ (getRows orig k).zip (getRows upd k),
      ∀ s, s ∈ objKeys p.1 ↔ s ∈ objKeys p.2 := by
  unfold rowsKeySetsEqB at h
  cases hA : orig.lookup k with
  | none => rw [hA] at h; exact Bool.noConfusion h
  | some tv1 =>
    cases hB : upd.lookup k with
    | none =>
      rw [hA, hB] at h
      cases tv1 <;> exact Bool.noConfusion h
    | some tv2 =>
      rw [hA, hB] at h
      cases tv1 with
      | prim p1 => cases tv2 <;> exact Bool.noConfusion h
      | rows a =>
        cases tv2 with
        | prim p2 => exact Bool.noConfusion h
        | rows b =>
          have h2 : ((a.zip b).all
              (fun p => keySetEqB (objKeys p.1) (objKeys p.2))) = true := h
          intro p hp s
          have hg1 : getRows orig k = a := by simp [getRows, hA]
          have hg2 : getRows upd k = b := by simp [getRows, hB]
          rw [hg1, hg2] at hp
          exact keySetEqB_iff (by simpa using (List.all_eq_true.mp h2) p hp) s

/-- The structural identity the claim asserts: identical top-level keys,
identical `trains`/`rails` list lengths, identical per-element key sets. -/
def StructurePreserved (orig upd : Ctx) : Prop :=
  (∀ k, k ∈ objKeys orig ↔ k ∈ objKeys upd) ∧
  (getRows orig ("trains")).length = (getRows upd ("trains")).length ∧
  (∀ p ∈ (getRows orig ("trains")).zip (getRows upd ("trains")),
    ∀ s, s ∈ objKeys p.1 ↔ s ∈ objKeys p.2) ∧
  (getRows orig ("rails")).length = (getRows upd ("rails")).length ∧
  (∀ p ∈ (getRows orig ("rails")).zip (getRows upd ("rails")),
    ∀ s, s ∈ objKeys p.1 ↔ s ∈ objKeys p.2)

/-- C2: for every instruction set the interpreter can hand over and every
affected-train list, a successful `update_context` returns a context that
is structurally identical to the input (the validator's checks); any
deviation is an `Except.error`, and — the embedding being pure — the input
context value is never modified and a failed update retains nothing. -/
theorem C2_update_context_structure (instr : UpdateInstructions)
    (ats : List String) (orig upd : Ctx)
    (h : updateContext instr ats orig = Except.ok upd) :
    StructurePreserved orig upd := by
  unfold updateContext at h
  by_cases hv : validateStructure orig (applyUpdates orig instr ats) = true
  · rw [if_pos hv] at h
    cases h
    unfold validateStructure at hv
    rw [Bool.and_eq_true] at hv
    obtain ⟨hv, h5⟩ := hv
    rw [Bool.and_eq_true] at hv
    obtain ⟨hv, h4⟩ := hv
    rw [Bool.and_eq_true] at hv
    obtain ⟨hv, h3⟩ := hv
    rw [Bool.and_eq_true] at hv
    obtain ⟨h1, h2⟩ := hv
    refine ⟨keySetEqB_iff h1, by simpa using h2, rowsKeySetsEq_prop h3,
      by simpa using h4, rowsKeySetsEq_prop h5⟩
  · rw [if_neg hv] at h
    exact Except.noConfusion h

/-- Witness for `C2_update_context_structure`: a one-train, one-rail
context updated through the keyword fallback for a 20% speed reduction. -/
theorem C2_update_context_structure_witness :
    StructurePreserved
      [(("trains"), TVal.rows [[(("train_id"), CVal.prim (PVal.str ("T1"))),
          (("route"), CVal.objs [[(("station_name"), PVal.str ("A"))],
                                 [(("station_name"), PVal.str ("B"))]])]]),
       (("rails"), TVal.rows [[(("source"), CVal.prim (PVal.str ("A"))),
          (("target"), CVal.prim (PVal.str ("B"))),
          (("max_speed_kmh"), CVal.prim (PVal.num 100))]])]
      (applyUpdates
        [(("trains"), TVal.rows [[(("train_id"), CVal.prim (PVal.str ("T1"))),
            (("route"), CVal.objs [[(("station_name"), PVal.str ("A"))],
                                   [(("station_name"), PVal.str ("B"))]])]]),
         (("rails"), TVal.rows [[(("source"), CVal.prim (PVal.str ("A"))),
            (("target"), CVal.prim (PVal.str ("B"))),
            (("max_speed_kmh"), CVal.prim (PVal.num 100))]])]
        (fallbackInterpretation [("Reduce speed by 20%")]) [("T1")]) :=
  C2_update_context_structure
    (fallbackInterpretation [("Reduce speed by 20%")]) [("T1")] _ _ (by rfl)

/-!
### Claim C9 — keyword fallback rules and global-update targeting
-/

theorem mem_addMatchingRails (p : Option PVal × Option PVal)
    (rails : List Obj) (acc : List Obj) (r : Obj) :
    r ∈ addMatchingRails p rails acc ↔
      r ∈ acc ∨ (r ∈ rails ∧ railMatchesPair r p = true) := by
  induction rails generalizing acc with
  | nil => simp [addMatchingRails]
  | cons rail rest ih =>
    have hstep : addMatchingRails p (rail :: rest) acc =
        addMatchingRails p rest
          (if railMatchesPair rail p = true ∧ rail ∉ acc then acc ++ [rail] else acc) := rfl
    rw [hstep, ih]
    by_cases h1 : railMatchesPair rail p = true ∧ rail ∉ acc
    · rw [if_pos h1]
      constructor
      · rintro (hr | hr)
        · rw [List.mem_append] at hr
          rcases hr with hr | hr
          · exact Or.inl hr
          · rcases List.mem_singleton.mp hr with rfl
            exact Or.inr ⟨List.mem_cons_self _ _, h1.1⟩
        · exact Or.inr ⟨List.mem_cons_of_mem _ hr.1, hr.2⟩
      · rintro (hr | ⟨hmem, hm⟩)
        · exact Or.inl (List.mem_append.mpr (Or.inl hr))
        · rcases List.mem_cons.mp hmem with rfl | hr
          · exact Or.inl (List.mem_append.mpr (Or.inr (List.mem_singleton.mpr rfl)))
          · exact Or.inr ⟨hr, hm⟩
    · rw [if_neg h1]
      constructor
      · rintro (hr | hr)
        · exact Or.inl hr
        · exact Or.inr ⟨List.mem_cons_of_mem _ hr.1, hr.2⟩
      · rintro (hr | ⟨hmem, hm⟩)
        · exact Or.inl hr
        · rcases List.mem_cons.mp hmem with rfl | hr
          · rcases Decidable.not_and_iff_or_not.mp h1 with hc | hc
            · exact absurd hm hc
            · exact Or.inl (Decidable.not_not.mp hc)
          · exact Or.inr ⟨hr, hm⟩

theorem mem_addRailsForPairs (pairs : List (Option PVal × Option PVal))
    (rails : List Obj) (acc : List Obj) (r : Obj) :
    r ∈ addRailsForPairs pairs rails acc ↔
      r ∈ acc ∨ (r ∈ rails ∧ ∃ p ∈ pairs, railMatchesPair r p = true) := by
  induction pairs generalizing acc with
  | nil => simp [addRailsForPairs]
  | cons p rest ih =>
    have hstep : addRailsForPairs (p :: rest) rails acc =
        addRailsForPairs rest rails (addMatchingRails p rails acc) := rfl
    rw [hstep, ih]
    rw [mem_addMatchingRails]
    constructor
    · rintro ((hr | ⟨hr, hm⟩) | ⟨hr, q, hq, hm⟩)
      · exact Or.inl hr
      · exact Or.inr ⟨hr, p, List.mem_cons_self _ _, hm⟩
      · exact Or.inr ⟨hr, q, List.mem_cons_of_mem _ hq, hm⟩
    · rintro (hr | ⟨hr, q, hq, hm⟩)
      · exact Or.inl (Or.inl hr)
      · rcases List.mem_cons.mp hq with rfl | hq
        · exact Or.inl (Or.inr ⟨hr, hm⟩)
        · exact Or.inr ⟨hr, q, hq, hm⟩

theorem mem_findRailsForTrains (ctx : Ctx) (ids : List String) (r : Obj) :
    r ∈ findRailsForTrains ctx ids ↔
      r ∈ getRows ctx ("rails") ∧
      ∃ t ∈ getRows ctx ("trains"), trainIdIn t ids = true ∧
        ∃ p ∈ consecutivePairs (routeOf t), railMatchesPair r p = true := by
  have main : ∀ (trains : List Obj) (acc : List Obj),
      r ∈ trains.foldl (fun acc train =>
          if trainIdIn train ids = true then
            addRailsForPairs (consecutivePairs (routeOf train))
              (getRows ctx ("rails")) acc
          else acc) acc ↔
        r ∈ acc ∨ (r ∈ getRows ctx ("rails") ∧
          ∃ t ∈ trains, trainIdIn t ids = true ∧
            ∃ p ∈ consecutivePairs (routeOf t), railMatchesPair r p = true) := by
    intro trains
    induction trains with
    | nil => simp
    | cons train rest ih =>
      intro acc
      rw [List.foldl_cons]
      by_cases ht : trainIdIn train ids = true
      · rw [if_pos ht, ih, mem_addRailsForPairs]
        constructor
        · rintro ((hr | ⟨hr, q, hq, hm⟩) | ⟨hr, t, hmem, hid, q, hq, hm⟩)
          · exact Or.inl hr
          · exact Or.inr ⟨hr, train, List.mem_cons_self _ _, ht, q, hq, hm⟩
          · exact Or.inr ⟨hr, t, List.mem_cons_of_mem _ hmem, hid, q, hq, hm⟩
        · rintro (hr | ⟨hr, t, hmem, hid, q, hq, hm⟩)
          · exact Or.inl (Or.inl hr)
          · rcases List.mem_cons.mp hmem with rfl | hmem
            · exact Or.inl (Or.inr ⟨hr, q, hq, hm⟩)
            · exact Or.inr ⟨hr, t, hmem, hid, q, hq, hm⟩
      · rw [if_neg ht, ih]
        constructor
        · rintro (hr | ⟨hr, t, hmem, hid, q, hq, hm⟩)
          · exact Or.inl hr
          · exact Or.inr ⟨hr, t, List.mem_cons_of_mem _ hmem, hid, q, hq, hm⟩
        · rintro (hr | ⟨hr, t, hmem, hid, q, hq, hm⟩)
          · exact Or.inl hr
          · rcases List.mem_cons.mp hmem with rfl | hmem
            · exact absurd hid ht
            · exact Or.inr ⟨hr, t, hmem, hid, q, hq, hm⟩
  have := main (getRows ctx ("trains")) []
  rw [show findRailsForTrains ctx ids =
      (getRows ctx ("trains")).foldl (fun acc train =>
        if trainIdIn train ids = true then
          addRailsForPairs (consecutivePairs (routeOf train))
            (getRows ctx ("rails")) acc
        else acc) [] from rfl]
  rw [this]
  simp

/-- C9: when the LLM interpreter fails, the keyword fallback produces no
train or rail updates and exactly the three documented global rules per
action — "reduce speed" (or "speed reduction") multiplies `max_speed_kmh`
by `1 − X` with `X` the matched percentage over 100 (default `0.15`);
"dwell time"/"extend" adds `1.5` to `travel_time_min`; "speed
restriction"/"limit speed" sets `max_speed_kmh` to `80` — and a global
update targets exactly the rails matching, direction-insensitively, some
consecutive route-stop pair of an affected train. -/
theorem C9_fallback_rules (actions : List String) (a : String) (x : ℕ)
    (ctx : Ctx) (ids : List String) (r : Obj) :
    (fallbackInterpretation actions).train_updates = [] ∧
    (fallbackInterpretation actions).rail_updates = [] ∧
    (a ∈ actions → ∀ u ∈ fallbackRuleUpdates a,
      u ∈ (fallbackInterpretation actions).global_updates) ∧
    (containsSub ("reduce speed") (pyToLower a) = true →
      findPercentFrom a.toList = some x →
      ({ description := ("Apply ") ++ toString (((x : ℚ) / 100) * 100) ++ ("% speed reduction"),
         parameter := some ("max_speed_kmh"), operation := some ("multiply"),
         value := some (CVal.prim (PVal.num (1 - (x : ℚ) / 100))) } : GlobalUpdate)
        ∈ fallbackRuleUpdates a) ∧
    (containsSub ("reduce speed") (pyToLower a) = true →
      findPercentFrom a.toList = none →
      ({ description := ("Apply ") ++ toString ((0.15 : ℚ) * 100) ++ ("% speed reduction"),
         parameter := some ("max_speed_kmh"), operation := some ("multiply"),
         value := some (CVal.prim (PVal.num (1 - 0.15))) } : GlobalUpdate)
        ∈ fallbackRuleUpdates a) ∧
    (containsSub ("extend") (pyToLower a) = true →
      ({ description := ("Extend dwell time"), parameter := some ("travel_time_min"),
         operation := some ("add"), value := some (CVal.prim (PVal.num 1.5)) } : GlobalUpdate)
        ∈ fallbackRuleUpdates a) ∧
    (containsSub ("speed restriction") (pyToLower a) = true →
      ({ description := ("Apply speed restriction"), parameter := some ("max_speed_kmh"),
         operation := some ("set"), value := some (CVal.prim (PVal.num 80)) } : GlobalUpdate)
        ∈ fallbackRuleUpdates a) ∧
    (r ∈ findRailsForTrains ctx ids ↔
      r ∈ getRows ctx ("rails") ∧
      ∃ t ∈ getRows ctx ("trains"), trainIdIn t ids = true ∧
        ∃ p ∈ consecutivePairs (routeOf t), railMatchesPair r p = true) := by
  refine ⟨rfl, rfl, ?_, ?_, ?_, ?_, ?_, mem_findRailsForTrains ctx ids r⟩
  · intro ha u hu
    simp only [fallbackInterpretation, List.mem_join]
    exact ⟨fallbackRuleUpdates a, List.mem_map.mpr ⟨a, ha, rfl⟩, hu⟩
  · intro h1 h2
    simp only [String.toList] at h2
    simp [fallbackRuleUpdates, h1, h2]
  · intro h1 h2
    simp only [String.toList] at h2
    simp [fallbackRuleUpdates, h1, h2]
  · intro h1
    simp [fallbackRuleUpdates, h1]
  · intro h1
    simp [fallbackRuleUpdates, h1]

/-- Witness for `C9_fallback_rules`: "Reduce speed by 20%" yields a 0.8
multiplier on `max_speed_kmh`. -/
theorem C9_fallback_rules_witness :
    containsSub ("reduce speed") (pyToLower ("Reduce speed by 20%")) = true ∧
    findPercentFrom (("Reduce speed by 20%").toList) = some 20 ∧
    ({ description := ("Apply ") ++ toString (((20 : ℚ) / 100) * 100) ++ ("% speed reduction"),
       parameter := some ("max_speed_kmh"), operation := some ("multiply"),
       value := some (CVal.prim (PVal.num (1 - (20 : ℚ) / 100))) } : GlobalUpdate)
      ∈ fallbackRuleUpdates ("Reduce speed by 20%") :=
  ⟨rfl, rfl,
    (C9_fallback_rules [] ("Reduce speed by 20%") 20 [] [] []).2.2.2.1 rfl rfl⟩

/-!
## Tick Engine (`simulator.py`, class `MockSimulator`)

`state_tracker.py` and `models.py` are imported by the simulator but are
not part of the repository snapshot; the `StateTracker` operations and the
`Train`/`Station`/`Edge`/`Incident` records are *modelled from the spec*
(§3 data model, §4.B tracker contract).  Fields of the §3 records that no
embedded operation reads (geographic metadata, headways, capacities beyond
the load counter) are omitted.

Randomness: the `random` module is an oracle `g : ℕ → ℚ` of draws in
`[0,1)`; `uniform(a,b) = a + (b−a)·u`, `randint(a,b) = a + ⌊u·(b−a+1)⌋`,
`choice(l) = l[⌊u·len(l)⌋]`, each consuming one draw through the cursor
`ridx`.  Wall-clock time (`datetime.now()` in `__init__`) enters as the
explicit `now` argument of `mkSimulator`.
-/

inductive ScenarioType where
  | normal
  | rush_hour
  | disruption
  | stress_test
  deriving DecidableEq, Repr

/-- `SimulationConfig` (`simulator.py`). -/
structure SimulationConfig where
  tick_interval_seconds : ℚ
  max_ticks : ℕ
  scenario : ScenarioType
  random_seed : Option ℤ
  delay_probability : ℚ
  speed_variation : ℚ
  train_spawn_rate : ℚ
  max_active_trains : ℕ
  max_delay_seconds : ℤ
  deriving DecidableEq, Repr

/-- The dataclass defaults of `SimulationConfig`. -/
def defaultSimulationConfig : SimulationConfig :=
  { tick_interval_seconds := 10, max_ticks := 100, scenario := ScenarioType.normal,
    random_seed := none, delay_probability := 0.1, speed_variation := 0.2,
    train_spawn_rate := 0.3, max_active_trains := 50, max_delay_seconds := 600 }

/-- Modelled from the spec: the §3 incident type set (`models.py` is not in
the snapshot). -/
inductive IncidentType where
  | technical
  | trespasser
  | weather
  | maintenance
  | fire
  | police_intervention
  | other
  deriving DecidableEq, Repr

/-- `list(IncidentType)`, in declaration order. -/
def incidentTypeList : List IncidentType :=
  [IncidentType.technical, IncidentType.trespasser, IncidentType.weather,
   IncidentType.maintenance, IncidentType.fire, IncidentType.police_intervention,
   IncidentType.other]

/-- The `.value` string of an incident type. -/
def incidentTypeName : IncidentType → String
  | IncidentType.technical => ("technical")
  | IncidentType.trespasser => ("trespasser")
  | IncidentType.weather => ("weather")
  | IncidentType.maintenance => ("maintenance")
  | IncidentType.fire => ("fire")
  | IncidentType.police_intervention => ("police_intervention")
  | IncidentType.other => ("other")

/-- Modelled from the spec: the §3 `Incident` record. -/
structure Incident where
  incident_id : String
  itype : IncidentType
  severity : ℚ
  start_time : ℚ
  is_blocking : Bool
  description : String
  deriving DecidableEq, Repr

/-- Modelled from the spec: the §3 train status set. -/
inductive TrainStatus where
  | stopped
  | on_time
  | delayed
  | holding
  deriving DecidableEq, Repr

/-- Modelled from the spec: `current_position_type ∈ {station, edge, unknown}`. -/
inductive PositionType where
  | station
  | edge
  | unknown
  deriving DecidableEq, Repr

/-- Modelled from the spec: the §3 `RouteStop` record. -/
structure RouteStop where
  station_name : String
  station_order : ℤ
  lat : ℚ
  lon : ℚ
  distance_from_previous_km : ℚ
  deriving DecidableEq, Repr

/-- Modelled from the spec: the §3 `Train` record (fields the simulator
and tracker touch). -/
structure Train where
  train_id : String
  priority : ℚ
  route : List RouteStop
  route_index : ℕ
  status : TrainStatus
  current_position_type : PositionType
  current_station : String
  current_edge : Option String
  progress_on_edge : ℚ
  current_speed_kmh : ℚ
  delay_seconds : ℤ
  is_holding : Bool
  deriving DecidableEq, Repr

/-- Modelled from the spec: the name of the stop after `route_index`
(`train.next_station` in `models.py`). -/
def Train.nextStation (tr : Train) : Option String :=
  (tr.route.get? (tr.route_index + 1)).map (·.station_name)

/-- Modelled from the spec: the §3 `Station` record (fields the simulator
and tracker touch). -/
structure Station where
  name : String
  max_trains_at_once : ℤ
  blocking_behavior : String
  current_trains : List String
  active_incidents : List Incident
  deriving DecidableEq, Repr

/-- Modelled from the spec: the §3 `Edge` record (fields the simulator
and tracker touch). -/
structure Edge where
  source : String
  target : String
  travel_time_min : ℚ
  max_speed_kmh : ℚ
  current_load : ℤ
  active_incidents : List Incident
  deriving DecidableEq, Repr

/-- Modelled from the spec: the State Tracker's live state (§2.B): keyed
trains, stations and edges (Python dicts in insertion order), the current
weather and the simulation clock. -/
structure NetState where
  trains : List (String × Train)
  stations : List (String × Station)
  edges : List (String × Edge)
  weather : String
  time : ℚ
  deriving DecidableEq, Repr

/-- Update the train stored under `tid`. -/
def updateTrain (st : NetState) (tid : String) (f : Train → Train) : NetState :=
  { st with trains := st.trains.map (fun p => if p.1 = tid then (p.1, f p.2) else p) }

/-- Update the station stored under `sid`. -/
def updateStation (st : NetState) (sid : String) (f : Station → Station) : NetState :=
  { st with stations := st.stations.map (fun p => if p.1 = sid then (p.1, f p.2) else p) }

/-- Update the edge stored under `eid`. -/
def updateEdge (st : NetState) (eid : String) (f : Edge → Edge) : NetState :=
  { st with edges := st.edges.map (fun p => if p.1 = eid then (p.1, f p.2) else p) }

/-- Modelled from the spec: `get_edge(src, dst)` — the first edge joining
the two stations in this direction. -/
def NetState.getEdge (st : NetState) (src dst : String) : Option (String × Edge) :=
  st.edges.find? (fun p => p.2.source == src && p.2.target == dst)

/-- Modelled from the spec: `update_time(t)`. -/
def trackerUpdateTime (st : NetState) (t : ℚ) : NetState := { st with time := t }

/-- Modelled from the spec: `update_weather(w)`. -/
def trackerUpdateWeather (st : NetState) (w : String) : NetState := { st with weather := w }

/-- Modelled from the spec: `update_train_speed(train, kmh)`. -/
def trackerUpdateTrainSpeed (st : NetState) (tid : String) (v : ℚ) : NetState :=
  updateTrain st tid (fun tr => { tr with current_speed_kmh := v })

/-- Modelled from the spec: `update_train_position_on_edge(train, progress)`. -/
def trackerUpdateTrainPositionOnEdge (st : NetState) (tid : String) (progress : ℚ) : NetState :=
  updateTrain st tid (fun tr => { tr with progress_on_edge := progress })

/-- Modelled from the spec: `update_train_delay(train, seconds)`. -/
def trackerUpdateTrainDelay (st : NetState) (tid : String) (d : ℤ) : NetState :=
  updateTrain st tid (fun tr => { tr with delay_seconds := d })

/-- Modelled from the spec: `set_train_holding(train, bool)`. -/
def trackerSetTrainHolding (st : NetState) (tid : String) (b : Bool) : NetState :=
  updateTrain st tid (fun tr => { tr with is_holding := b })

/-- Modelled from the spec: `train_departs_station(train, target)` — the
train leaves its station's occupant list, moves onto the edge towards
`target` (load incremented), with progress reset and the route index
advanced past the departed stop. -/
def trackerTrainDepartsStation (st : NetState) (tid target : String) : NetState :=
  match st.trains.lookup tid with
  | none => st
  | some tr =>
    let st := updateStation st tr.current_station
      (fun stn => { stn with current_trains := stn.current_trains.erase tid })
    let eidOpt := (st.getEdge tr.current_station target).map (·.1)
    let st := match eidOpt with
      | some eid => updateEdge st eid (fun e => { e with current_load := e.current_load + 1 })
      | none => st
    updateTrain st tid (fun tr => { tr with
      current_position_type := PositionType.edge, current_edge := eidOpt,
      progress_on_edge := 0, route_index := tr.route_index + 1 })

/-- Modelled from the spec: `train_exits_edge(train)` — the prior edge's
`current_load` is decremented and the train's edge fields cleared. -/
def trackerTrainExitsEdge (st : NetState) (tid : String) : NetState :=
  match st.trains.lookup tid with
  | none => st
  | some tr =>
    let st := match tr.current_edge with
      | some eid => updateEdge st eid (fun e => { e with current_load := e.current_load - 1 })
      | none => st
    updateTrain st tid (fun tr => { tr with current_edge := none, progress_on_edge := 0 })

/-- Modelled from the spec: `train_arrives_at_station(train, station)` —
arrivals append the train to the station's occupants and clear its edge
fields. -/
def trackerTrainArrivesAtStation (st : NetState) (tid station_name : String) : NetState :=
  let st := updateStation st station_name
    (fun stn => { stn with current_trains := stn.current_trains ++ [tid] })
  updateTrain st tid (fun tr => { tr with
    current_position_type := PositionType.station, current_station := station_name,
    current_edge := none, progress_on_edge := 0 })

/-- The simulator's own state (`MockSimulator` attributes), plus the
random-oracle cursor. -/
structure SimState where
  cfg : SimulationConfig
  tracker : NetState
  current_time : ℚ
  tick_count : ℕ
  active_trains : List String
  completed_trains : List String
  registry : List (String × Incident)
  incident_probability : ℚ
  ridx : ℕ
  deriving DecidableEq, Repr

/-- One entry of `changes["departures"]` (keys `train`, `from`, `to`). -/
structure DepartureRec where
  train : String
  from_station : String
  to_station : String
  deriving DecidableEq, Repr

/-- One entry of `changes["arrivals"]`. -/
structure ArrivalRec where
  train : String
  station : String
  deriving DecidableEq, Repr

/-- One entry of `changes["speed_changes"]`. -/
structure SpeedRec where
  train : String
  speed : ℚ
  deriving DecidableEq, Repr

/-- One entry of `changes["delays_added"]`. -/
structure DelayRec where
  train : String
  delay_seconds : ℤ
  deriving DecidableEq, Repr

/-- One entry of `changes["incidents_started"]`. -/
structure IncidentRec where
  id : String
  location : String
  deriving DecidableEq, Repr

/-- The per-tick change record (`tick()`'s `changes` dict; the `time`
string is its underlying clock value). -/
structure Changes where
  tick : ℕ
  time : ℚ
  departures : List DepartureRec
  arrivals : List ArrivalRec
  delays_added : List DelayRec
  speed_changes : List SpeedRec
  trains_spawned : List String
  incidents_started : List IncidentRec
  incidents_resolved : List String
  weather : String
  deriving DecidableEq, Repr

/-- The floor of a rational as an integer (`⌊q⌋`, computed directly so
that concrete runs reduce in the kernel). -/
def ratFloor (q : ℚ) : ℤ := q.num.fdiv q.den

/-- `random.choice` index for a list of length `n`. -/
def choiceIdx (n : ℕ) (u : ℚ) : ℕ := Int.toNat (ratFloor (u * (n : ℚ)))

/-- `MockSimulator._apply_scenario_config`. -/
def applyScenarioConfig (s : SimState) : SimState :=
  match s.cfg.scenario with
  | ScenarioType.rush_hour =>
    { s with
      cfg := { s.cfg with
               train_spawn_rate := 0.6
               delay_probability := 0.2
               max_active_trains := 80 }
      incident_probability := 0.08 }
  | ScenarioType.disruption =>
    { s with
      cfg := { s.cfg with
               delay_probability := 0.4
               max_delay_seconds := 1200 }
      incident_probability := 0.3 }
  | ScenarioType.stress_test =>
    { s with
      cfg := { s.cfg with
               train_spawn_rate := 0.8
               max_active_trains := 100
               delay_probability := 0.3 }
      incident_probability := 0.15 }
  | ScenarioType.normal => s

/-- `MockSimulator.__init__`.  `now` is the wall-clock `datetime.now()`
read at construction.  Note the source order: `_apply_scenario_config`
sets the scenario's `incident_probability`, and the constructor then
overwrites it with `0.05` unconditionally.  The truthiness check
`if self.config.random_seed:` selects the oracle (a seed of `0` leaves
the global generator unseeded); the oracle is a parameter here. -/
def mkSimulator (tracker : NetState) (cfg : SimulationConfig) (now : ℚ) : SimState :=
  let s : SimState :=
    { cfg := cfg, tracker := tracker, current_time := now, tick_count := 0,
      active_trains := [], completed_trains := [], registry := [],
      incident_probability := 0.05, ridx := 0 }
  let s := applyScenarioConfig s
  { s with incident_probability := 0.05 }

section TickEngine

variable (g : ℕ → ℚ)

/-- `random.random()`: the next oracle draw. -/
def drawFloat (s : SimState) : ℚ × SimState :=
  (g s.ridx, { s with ridx := s.ridx + 1 })

/-- Step 1 of `tick()`: advance the clock by the tick interval, bump the
tick counter, notify the tracker. -/
def advanceClock (s : SimState) : SimState :=
  let t := s.current_time + s.cfg.tick_interval_seconds
  { s with
    tick_count := s.tick_count + 1
    current_time := t
    tracker := trackerUpdateTime s.tracker t }

/-- The fresh `changes` dict built at the top of `tick()` (after the
clock advance). -/
def initChanges (s : SimState) : Changes :=
  { tick := s.tick_count, time := s.current_time, departures := [],
    arrivals := [], delays_added := [], speed_changes := [],
    trains_spawned := [], incidents_started := [], incidents_resolved := [],
    weather := s.tracker.weather }

/-- The weather list of `_update_weather`. -/
def weathersList : List String := [("clear"), ("rain"), ("snow"), ("fog"), ("storm")]

/-- `MockSimulator._update_weather`: with the 5% draw, pick one of five
weathers; on an actual change, notify the tracker, record it, and either
scale `incident_probability` by 1.5 (snow/storm) or reset it to
`0.05 + (0.1 if scenario == DISRUPTION else 0)`. -/
def updateWeather (sc : SimState × Changes) : SimState × Changes :=
  let (s, ch) := sc
  let (u, s) := drawFloat g s
  if u > 0.05 then (s, ch)
  else
    let (u2, s) := drawFloat g s
    let new_weather := weathersList.getD (choiceIdx 5 u2) ("clear")
    if new_weather ≠ s.tracker.weather then
      let s := { s with tracker := trackerUpdateWeather s.tracker new_weather }
      let ch := { ch with weather := new_weather }
      if new_weather = ("snow") ∨ new_weather = ("storm") then
        ({ s with incident_probability := s.incident_probability * 1.5 }, ch)
      else
        ({ s with incident_probability :=
            0.05 + (if s.cfg.scenario = ScenarioType.disruption then 0.1 else 0) }, ch)
    else (s, ch)

/-- Remove a resolved incident from every edge and station container. -/
def removeIncidentEverywhere (st : NetState) (inc_id : String) : NetState :=
  { st with
    edges := st.edges.map (fun p =>
      (p.1, { p.2 with active_incidents :=
        p.2.active_incidents.filter (fun i => i.incident_id ≠ inc_id) }))
    stations := st.stations.map (fun p =>
      (p.1, { p.2 with active_incidents :=
        p.2.active_incidents.filter (fun i => i.incident_id ≠ inc_id) })) }

/-- `MockSimulator._update_incidents`: each active incident resolves with
probability `0.05 + 0.01·age_ticks`; resolved incidents leave the
registry and every container, and are recorded. -/
def updateIncidents (sc : SimState × Changes) : SimState × Changes :=
  let (s, ch) := sc
  let (to_resolve, s) := s.registry.foldl (fun acc p =>
    let (u, st) := drawFloat g acc.2
    let age_ticks := (st.current_time - p.2.start_time) / st.cfg.tick_interval_seconds
    let resolve_chance := 0.05 + age_ticks * 0.01
    if u < resolve_chance then (acc.1 ++ [p.1], st) else (acc.1, st))
    (([] : List String), s)
  to_resolve.foldl (fun acc inc_id =>
    let s := acc.1
    let s := { s with
      registry := s.registry.filter (fun q => q.1 ≠ inc_id)
      tracker := removeIncidentEverywhere s.tracker inc_id }
    (s, { acc.2 with incidents_resolved := acc.2.incidents_resolved ++ [inc_id] }))
    (s, ch)

/-- `MockSimulator._maybe_spawn_incident`: with probability
`incident_probability`, build an incident (type, severity `uniform(20,95)`,
`is_blocking = severity > 70`, id `INC_<tick>_<randint(100,999)>`) and
attach it to a random edge (70%, when edges exist) or else a random
station.  The source appends the station record to
`changes["incidents_started"]` twice (lines 410 and 412). -/
def maybeSpawnIncident (sc : SimState × Changes) : SimState × Changes :=
  let (s, ch) := sc
  let (u, s) := drawFloat g s
  if u > s.incident_probability then (s, ch)
  else
    let (u2, s) := drawFloat g s
    let is_edge := u2 < 0.7
    let (u3, s) := drawFloat g s
    let incident_type := incidentTypeList.getD (choiceIdx 7 u3) IncidentType.other
    let (u4, s) := drawFloat g s
    let severity := 20 + (95 - 20) * u4
    let is_blocking := severity > 70
    let (u5, s) := drawFloat g s
    let idnum := 100 + Int.toNat (ratFloor (u5 * 900))
    let incident_id := ("INC_") ++ toString s.tick_count ++ ("_") ++ toString idnum
    let incident : Incident :=
      { incident_id := incident_id, itype := incident_type, severity := severity,
        start_time := s.current_time, is_blocking := is_blocking,
        description := ("Generated ") ++ incidentTypeName incident_type ++ (" incident") }
    if is_edge ∧ s.tracker.edges ≠ [] then
      let (u6, s) := drawFloat g s
      let edge_id := (s.tracker.edges.map (·.1)).getD
        (choiceIdx s.tracker.edges.length u6) ("")
      let s := { s with
        tracker := updateEdge s.tracker edge_id
          (fun e => { e with active_incidents := e.active_incidents ++ [incident] })
        registry := s.registry ++ [(incident_id, incident)] }
      (s, { ch with incidents_started :=
        ch.incidents_started ++ [{ id := incident_id, location := edge_id }] })
    else if s.tracker.stations ≠ [] then
      let (u6, s) := drawFloat g s
      let station_id := (s.tracker.stations.map (·.1)).getD
        (choiceIdx s.tracker.stations.length u6) ("")
      let s := { s with
        tracker := updateStation s.tracker station_id
          (fun stn => { stn with active_incidents := stn.active_incidents ++ [incident] })
        registry := s.registry ++ [(incident_id, incident)] }
      (s, { ch with incidents_started :=
        ch.incidents_started ++ [{ id := incident_id, location := station_id },
                                 { id := incident_id, location := station_id }] })
    else (s, ch)

/-- `MockSimulator._should_train_depart`. -/
def shouldTrainDepart (s : SimState) (tr : Train) : Bool × SimState :=
  if tr.route_index ≥ tr.route.length - 1 then (false, s)
  else
    let (u, s) := drawFloat g s
    let base_chance := 0.3 + s.cfg.train_spawn_rate * 0.3
    let priority_bonus := tr.priority * 0.05
    (u < base_chance + priority_bonus, s)

/-- `MockSimulator._complete_train`. -/
def completeTrain (s : SimState) (train_id : String) : SimState :=
  { s with
    active_trains := s.active_trains.erase train_id
    completed_trains := s.completed_trains ++ [train_id]
    tracker := updateTrain s.tracker train_id
      (fun tr => { tr with status := TrainStatus.stopped }) }

/-- `MockSimulator._train_arrives`. -/
def trainArrives (s : SimState) (train_id : String) (ch : Changes) :
    SimState × Changes :=
  match s.tracker.trains.lookup train_id with
  | none => (s, ch)
  | some tr =>
    if tr.route_index ≥ tr.route.length then (completeTrain s train_id, ch)
    else
      let next_station_name :=
        ((tr.route.get? tr.route_index).map (·.station_name)).getD ("")
      let s := { s with tracker := trackerTrainExitsEdge s.tracker train_id }
      let s := { s with tracker :=
        trackerTrainArrivesAtStation s.tracker train_id next_station_name }
      let ch := { ch with arrivals :=
        ch.arrivals ++ [{ train := train_id, station := next_station_name }] }
      if tr.route_index ≥ tr.route.length - 1 then (completeTrain s train_id, ch)
      else (s, ch)

/-- The effective speed computed in `_progress_train_on_edge`:
`max_speed · (1 + (u − 0.5)·speed_variation·2) · weather factor ·
(1 − delay/3600)`, clamped to `[20, max_speed]`. -/
def actualSpeed (e : Edge) (weather : String) (delay_seconds : ℤ)
    (speed_variation u : ℚ) : ℚ :=
  let base_speed := e.max_speed_kmh
  let speed_factor := 1 + (u - 0.5) * speed_variation * 2
  let speed_factor :=
    if weather = ("snow") ∨ weather = ("storm") ∨ weather = ("fog") then speed_factor * 0.8
    else if weather = ("rain") then speed_factor * 0.95
    else speed_factor
  let actual := base_speed * speed_factor * (1 - (delay_seconds : ℚ) / 3600)
  max 20 (min actual e.max_speed_kmh)

/-- `MockSimulator._progress_train_on_edge`.  A blocking incident on the
edge forces the speed to 0 (when positive) and leaves progress untouched;
otherwise the effective speed is computed (only recorded when it moves by
more than 5), progress advances by `tick_interval / (travel_time_min·60)`
(the source would divide by zero on a zero travel time), and reaching
progress 1 triggers the arrival handling. -/
def progressTrainOnEdge (s : SimState) (train_id : String) (ch : Changes) :
    SimState × Changes :=
  match s.tracker.trains.lookup train_id with
  | none => (s, ch)
  | some tr =>
    match tr.current_edge with
    | none => (s, ch)
    | some eid =>
      match s.tracker.edges.lookup eid with
      | none => (s, ch)
      | some e =>
        if e.active_incidents.any (·.is_blocking) then
          if tr.current_speed_kmh > 0 then
            ({ s with tracker := trackerUpdateTrainSpeed s.tracker train_id 0 },
             { ch with speed_changes :=
               ch.speed_changes ++ [{ train := train_id, speed := 0 }] })
          else (s, ch)
        else
          let (u, s) := drawFloat g s
          let actual := actualSpeed e s.tracker.weather tr.delay_seconds
            s.cfg.speed_variation u
          let sc1 :=
            if |tr.current_speed_kmh - actual| > 5 then
              ({ s with tracker := trackerUpdateTrainSpeed s.tracker train_id actual },
               { ch with speed_changes :=
                 ch.speed_changes ++ [{ train := train_id, speed := actual }] })
            else (s, ch)
          let s := sc1.1
          let ch := sc1.2
          let travel_time_seconds := e.travel_time_min * 60
          let progress_per_tick := s.cfg.tick_interval_seconds / travel_time_seconds
          let new_progress := tr.progress_on_edge + progress_per_tick
          if new_progress ≥ 1 then trainArrives s train_id ch
          else
            ({ s with tracker :=
              trackerUpdateTrainPositionOnEdge s.tracker train_id new_progress }, ch)

/-- The departure handling inside the `tick()` train loop: the tracker
moves the train, then the record reads `route[route_index − 1]` (the index
was advanced by the departure). -/
def departAndRecord (s : SimState) (ch : Changes) (train_id next_station : String) :
    SimState × Changes :=
  let s := { s with tracker := trackerTrainDepartsStation s.tracker train_id next_station }
  match s.tracker.trains.lookup train_id with
  | some tr2 =>
    let from_name := ((tr2.route.get? (tr2.route_index - 1)).map (·.station_name)).getD ("")
    (s, { ch with departures := ch.departures ++
      [{ train := train_id, from_station := from_name, to_station := next_station }] })
  | none => (s, ch)

/-- The body of the `tick()` train loop for one train id: at a station,
maybe depart (unless the next edge carries a blocking incident; a falsy
`next_station` — `None` or the empty name — skips); on an edge, progress. -/
def processOneTrain (sc : SimState × Changes) (train_id : String) :
    SimState × Changes :=
  let (s, ch) := sc
  match s.tracker.trains.lookup train_id with
  | none => (s, ch)
  | some tr =>
    match tr.current_position_type with
    | PositionType.station =>
      let (dep, s) := shouldTrainDepart g s tr
      if dep then
        match tr.nextStation with
        | some next_station =>
          if next_station = "" then (s, ch)
          else
            match s.tracker.getEdge tr.current_station next_station with
            | some (_, e) =>
              if e.active_incidents.any (·.is_blocking) then (s, ch)
              else departAndRecord s ch train_id next_station
            | none => departAndRecord s ch train_id next_station
        | none => (s, ch)
      else (s, ch)
    | PositionType.edge => progressTrainOnEdge g s train_id ch
    | PositionType.unknown => (s, ch)

/-- Step 5 of `tick()`: `for train_id in list(self.active_trains)` — the
loop iterates a snapshot of the active list taken before the loop. -/
def processTrains (sc : SimState × Changes) : SimState × Changes :=
  sc.1.active_trains.foldl (processOneTrain g) sc

/-- `MockSimulator._introduce_random_delays`. -/
def introduceRandomDelays (sc : SimState × Changes) : SimState × Changes :=
  let (s, ch) := sc
  let (u, s) := drawFloat g s
  if u > s.cfg.delay_probability then (s, ch)
  else if s.active_trains = [] then (s, ch)
  else
    let (u2, s) := drawFloat g s
    let train_id := s.active_trains.getD (choiceIdx s.active_trains.length u2) ("")
    match s.tracker.trains.lookup train_id with
    | none => (s, ch)
    | some tr =>
      let (u3, s) := drawFloat g s
      let hi := s.cfg.max_delay_seconds.fdiv 3
      let delay_increase := 30 + ratFloor (u3 * ((hi - 30 + 1 : ℤ) : ℚ))
      let new_delay := min (tr.delay_seconds + delay_increase) s.cfg.max_delay_seconds
      let s := { s with tracker := trackerUpdateTrainDelay s.tracker train_id new_delay }
      let ch := { ch with delays_added :=
        ch.delays_added ++ [{ train := train_id, delay_seconds := new_delay }] }
      if tr.current_position_type = PositionType.station ∧ new_delay > 180 then
        let (u4, s) := drawFloat g s
        if u4 < 0.3 then
          ({ s with tracker := trackerSetTrainHolding s.tracker train_id true }, ch)
        else (s, ch)
      else (s, ch)

/-- Position an inactive train at its route's first stop (the field
assignments of `_maybe_spawn_trains`). -/
def spawnTrainAtStart (st : NetState) (tid start_station : String) : NetState :=
  let st := updateTrain st tid (fun tr =>
    { tr with
      current_position_type := PositionType.station
      current_station := start_station
      route_index := 0
      status := TrainStatus.on_time
      delay_seconds := 0 })
  match st.stations.lookup start_station with
  | some station =>
    if tid ∈ station.current_trains then st
    else updateStation st start_station
      (fun stn => { stn with current_trains := stn.current_trains ++ [tid] })
  | none => st

/-- `MockSimulator._maybe_spawn_trains`. -/
def maybeSpawnTrains (sc : SimState × Changes) : SimState × Changes :=
  let (s, ch) := sc
  if s.active_trains.length ≥ s.cfg.max_active_trains then (s, ch)
  else
    let (u, s) := drawFloat g s
    if u > s.cfg.train_spawn_rate * 0.2 then (s, ch)
    else
      let inactive := (s.tracker.trains.map (·.1)).filter
        (fun tid => !(s.active_trains.contains tid) && !(s.completed_trains.contains tid))
      if inactive = [] then (s, ch)
      else
        let (u2, s) := drawFloat g s
        let train_id := inactive.getD (choiceIdx inactive.length u2) ("")
        match s.tracker.trains.lookup train_id with
        | some tr =>
          if tr.route ≠ [] then
            let start_station := ((tr.route.get? 0).map (·.station_name)).getD ("")
            let s := { s with
              tracker := spawnTrainAtStart s.tracker train_id start_station
              active_trains := s.active_trains ++ [train_id] }
            (s, { ch with trains_spawned := ch.trains_spawned ++ [train_id] })
          else (s, ch)
        | none => (s, ch)

/-- `MockSimulator.tick()`: the seven steps in source order. -/
def tick (s : SimState) : SimState × Changes :=
  let s := advanceClock s
  let ch := initChanges s
  let sc := updateWeather g (s, ch)
  let sc := updateIncidents g sc
  let sc := maybeSpawnIncident g sc
  let sc := processTrains g sc
  let sc := introduceRandomDelays g sc
  maybeSpawnTrains g sc

end TickEngine

/-!
### Lookup/update helper lemmas
-/

theorem lookup_mapIf {α : Type} (l : List (String × α)) (tid : String) (f : α → α) :
    (l.map (fun p => if p.1 = tid then (p.1, f p.2) else p)).lookup tid =
      (l.lookup tid).map f := by
  induction l with
  | nil => rfl
  | cons p t ih =>
    obtain ⟨k, v⟩ := p
    dsimp only [List.map]
    by_cases hk : k = tid
    · rw [if_pos hk]
      subst hk
      simp [List.lookup, ih]
    · rw [if_neg hk]
      have hne : (tid == k) = false := beq_eq_false_iff_ne.mpr (Ne.symm hk)
      simp [List.lookup, hne, ih]

theorem lookup_updateTrain (st : NetState) (tid : String) (f : Train → Train) :
    (updateTrain st tid f).trains.lookup tid = (st.trains.lookup tid).map f := by
  unfold updateTrain
  exact lookup_mapIf st.trains tid f

theorem lookup_updateTrainSpeed (st : NetState) (tid : String) (v : ℚ) (tr : Train)
    (h : st.trains.lookup tid = some tr) :
    (trackerUpdateTrainSpeed st tid v).trains.lookup tid =
      some { tr with current_speed_kmh := v } := by
  unfold trackerUpdateTrainSpeed
  rw [lookup_updateTrain, h]
  rfl

/-!
### Claim C4 — blocking incidents stop the train
-/

/-- C4: during the per-train tick step, a train sitting on an edge that
carries an active blocking incident has its speed forced to 0 (from any
non-negative speed) and its `progress_on_edge` unchanged — in particular
it never strictly increases. -/
theorem C4_blocking_incident (g : ℕ → ℚ) (s : SimState) (train_id : String)
    (ch : Changes) (tr : Train) (eid : String) (e : Edge)
    (htr : s.tracker.trains.lookup train_id = some tr)
    (hedge : tr.current_edge = some eid)
    (he : s.tracker.edges.lookup eid = some e)
    (hblock : e.active_incidents.any (·.is_blocking) = true)
    (hnn : 0 ≤ tr.current_speed_kmh) :
    ∃ tr', (progressTrainOnEdge g s train_id ch).1.tracker.trains.lookup train_id =
        some tr' ∧
      tr'.current_speed_kmh = 0 ∧
      tr'.progress_on_edge = tr.progress_on_edge := by
  unfold progressTrainOnEdge
  simp only [htr, hedge, he, hblock]
  by_cases hsp : tr.current_speed_kmh > 0
  · rw [if_pos hsp]
    exact ⟨{ tr with current_speed_kmh := 0 },
      lookup_updateTrainSpeed s.tracker train_id 0 tr htr, rfl, rfl⟩
  · rw [if_neg hsp]
    exact ⟨tr, htr, le_antisymm (not_lt.mp hsp) hnn, rfl⟩

/-- A concrete blocking incident (test fixture). -/
def fixtureIncident : Incident :=
  { incident_id := ("INC_1_100")
    itype := IncidentType.technical
    severity := 90
    start_time := 0
    is_blocking := true
    description := ("blocked") }

/-- A concrete edge carrying `fixtureIncident` (test fixture). -/
def fixtureBlockedEdge : Edge :=
  { source := ("A")
    target := ("B")
    travel_time_min := 5
    max_speed_kmh := 120
    current_load := 1
    active_incidents := [fixtureIncident] }

/-- A concrete train mid-edge on `E1` (test fixture). -/
def fixtureTrain : Train :=
  { train_id := ("T1")
    priority := 1
    route := []
    route_index := 0
    status := TrainStatus.on_time
    current_position_type := PositionType.edge
    current_station := ("A")
    current_edge := some ("E1")
    progress_on_edge := 1/4
    current_speed_kmh := 80
    delay_seconds := 0
    is_holding := false }

/-- A simulator state whose only train is stuck on a blocked edge. -/
def fixtureSimBlocked : SimState :=
  { cfg := defaultSimulationConfig
    tracker :=
      { trains := [(("T1"), fixtureTrain)]
        stations := []
        edges := [(("E1"), fixtureBlockedEdge)]
        weather := ("clear")
        time := 0 }
    current_time := 10
    tick_count := 1
    active_trains := [("T1")]
    completed_trains := []
    registry := []
    incident_probability := 0.05
    ridx := 0 }

/-- An empty change record for tick 1 (test fixture). -/
def fixtureChanges : Changes :=
  { tick := 1
    time := 10
    departures := []
    arrivals := []
    delays_added := []
    speed_changes := []
    trains_spawned := []
    incidents_started := []
    incidents_resolved := []
    weather := ("clear") }

/-- Witness for `C4_blocking_incident`: the concrete blocked train. -/
theorem C4_blocking_incident_witness :
    ∃ tr', (progressTrainOnEdge (fun _ => 1/2) fixtureSimBlocked ("T1")
        fixtureChanges).1.tracker.trains.lookup ("T1") = some tr' ∧
      tr'.current_speed_kmh = 0 ∧ tr'.progress_on_edge = fixtureTrain.progress_on_edge :=
  C4_blocking_incident (fun _ => 1/2) fixtureSimBlocked ("T1") fixtureChanges
    fixtureTrain ("E1") fixtureBlockedEdge
    (by rfl) (by rfl) (by rfl) (by rfl) (by norm_num [fixtureTrain])

/-!
### Claim C5 — weather update and the incident-probability coupling
-/

/-- A rush-hour simulator state in the rain, carrying the scenario's
nominal incident probability 0.08 (test fixture). -/
def fixtureSimRushHour : SimState :=
  { cfg := { defaultSimulationConfig with
             scenario := ScenarioType.rush_hour
             train_spawn_rate := 0.6
             delay_probability := 0.2
             max_active_trains := 80 }
    tracker :=
      { trains := []
        stations := []
        edges := []
        weather := ("rain")
        time := 0 }
    current_time := 10
    tick_count := 1
    active_trains := []
    completed_trains := []
    registry := []
    incident_probability := 0.08
    ridx := 0 }

/-- C5, counterexample: with the weather-change draw taken (`0.01 ≤ 0.05`)
and the new weather "clear" drawn under the rush-hour scenario, the code
sets `incident_probability` to `0.05 + 0 = 0.05`, not the scenario's
baseline `0.08` the claim requires. -/
theorem C5_counterexample :
    (updateWeather (fun n => if n = 0 then 0.01 else 0)
        (fixtureSimRushHour, fixtureChanges)).1.incident_probability = 0.05 ∧
    (updateWeather (fun n => if n = 0 then 0.01 else 0)
        (fixtureSimRushHour, fixtureChanges)).2.weather = ("clear") ∧
    ¬ ((updateWeather (fun n => if n = 0 then 0.01 else 0)
        (fixtureSimRushHour, fixtureChanges)).1.incident_probability = 0.08) := by
  have heval : updateWeather (fun n => if n = 0 then 0.01 else 0)
      (fixtureSimRushHour, fixtureChanges) =
      ({ fixtureSimRushHour with
          ridx := 2
          tracker := trackerUpdateWeather fixtureSimRushHour.tracker ("clear")
          incident_probability := 0.05 },
        { fixtureChanges with weather := ("clear") }) := by
    unfold updateWeather drawFloat
    norm_num [fixtureSimRushHour, fixtureChanges, choiceIdx, ratFloor, weathersList,
      trackerUpdateWeather]
    rw [if_neg (show ¬ ((("clear") : String) = ("rain")) by decide)]
    rw [if_neg (show ¬ (((("clear") : String) = ("snow")) ∨ ((("clear") : String) = ("storm")))
      by decide)]
    simp
  rw [heval]
  norm_num [fixtureSimRushHour, fixtureChanges, trackerUpdateWeather]

/-- C5, amended: the weather branch runs exactly when the tick's weather
draw is ≤ 0.05 (a 5% event); when the drawn weather differs from the
current one and is snow or storm, `incident_probability` is multiplied by
1.5 — persistently, not for one tick — and otherwise it is set to
`0.05 + (0.1 if the scenario is disruption else 0)`, regardless of the
other scenarios' baselines; a drawn weather equal to the current one
changes nothing. -/
theorem C5_weather_update (g : ℕ → ℚ) (s : SimState) (ch : Changes) :
    (g s.ridx > 0.05 →
      updateWeather g (s, ch) = ({ s with ridx := s.ridx + 1 }, ch)) ∧
    (¬ (g s.ridx > 0.05) →
      weathersList.getD (choiceIdx 5 (g (s.ridx + 1))) ("clear") = s.tracker.weather →
      updateWeather g (s, ch) = ({ s with ridx := s.ridx + 2 }, ch)) ∧
    (¬ (g s.ridx > 0.05) →
      ∀ w, w = weathersList.getD (choiceIdx 5 (g (s.ridx + 1))) ("clear") →
      w ≠ s.tracker.weather → (w = ("snow") ∨ w = ("storm")) →
      (updateWeather g (s, ch)).1.incident_probability = s.incident_probability * 1.5 ∧
      (updateWeather g (s, ch)).1.tracker.weather = w ∧
      (updateWeather g (s, ch)).2.weather = w) ∧
    (¬ (g s.ridx > 0.05) →
      ∀ w, w = weathersList.getD (choiceIdx 5 (g (s.ridx + 1))) ("clear") →
      w ≠ s.tracker.weather → ¬ (w = ("snow") ∨ w = ("storm")) →
      (updateWeather g (s, ch)).1.incident_probability =
        0.05 + (if s.cfg.scenario = ScenarioType.disruption then 0.1 else 0) ∧
      (updateWeather g (s, ch)).1.tracker.weather = w ∧
      (updateWeather g (s, ch)).2.weather = w) := by
  refine ⟨?_, ?_, ?_, ?_⟩
  · intro h
    unfold updateWeather drawFloat
    dsimp only
    rw [if_pos h]
  · intro h hw
    unfold updateWeather drawFloat
    dsimp only
    rw [if_neg h]
    rw [if_neg (by simpa using hw)]
  · rintro h w rfl hne hsnow
    unfold updateWeather drawFloat
    dsimp only
    rw [if_neg h]
    rw [if_pos hne, if_pos hsnow]
    exact ⟨rfl, rfl, rfl⟩
  · rintro h w rfl hne hsnow
    unfold updateWeather drawFloat
    dsimp only
    rw [if_neg h]
    rw [if_pos hne, if_neg hsnow]
    exact ⟨rfl, rfl, rfl⟩

/-- Witness for `C5_weather_update`: drawing snow over rain multiplies the
incident probability by 1.5. -/
theorem C5_weather_update_witness :
    (updateWeather (fun n => if n = 0 then 0.01 else 2/5)
        (fixtureSimRushHour, fixtureChanges)).1.incident_probability =
      fixtureSimRushHour.incident_probability * 1.5 ∧
    (updateWeather (fun n => if n = 0 then 0.01 else 2/5)
        (fixtureSimRushHour, fixtureChanges)).1.tracker.weather = ("snow") ∧
    (updateWeather (fun n => if n = 0 then 0.01 else 2/5)
        (fixtureSimRushHour, fixtureChanges)).2.weather = ("snow") :=
  (C5_weather_update (fun n => if n = 0 then 0.01 else 2/5)
      fixtureSimRushHour fixtureChanges).2.2.1
    (by norm_num [fixtureSimRushHour]) ("snow")
    (by norm_num [fixtureSimRushHour, choiceIdx, ratFloor, weathersList]; decide)
    (by decide) (Or.inl rfl)

/-!
### Claim C6 — effective speed, progress increment, arrival condition
-/

theorem lookup_updateTrainProgress (st : NetState) (tid : String) (v : ℚ) (tr : Train)
    (h : st.trains.lookup tid = some tr) :
    (trackerUpdateTrainPositionOnEdge st tid v).trains.lookup tid =
      some { tr with progress_on_edge := v } := by
  unfold trackerUpdateTrainPositionOnEdge
  rw [lookup_updateTrain, h]
  rfl

/-- C6: on an unblocked edge, the effective speed computed by the tick
step equals `max_speed · (1 + U[−1,1]·speed_variation) · weather_factor ·
(1 − delay/3600)` clamped to `[20, max_speed]` (weather factor 0.8 for
snow/storm/fog, 0.95 for rain, 1 otherwise, with `U = 2u − 1` for a unit
draw `u`); the progress increment is `tick_interval/(travel_time_min·60)`;
and the train arrives at the next route stop exactly when the accumulated
progress reaches 1. -/
theorem C6_effective_speed_and_progress (g : ℕ → ℚ) (s : SimState)
    (train_id : String) (ch : Changes) (tr : Train) (eid : String) (e : Edge)
    (htr : s.tracker.trains.lookup train_id = some tr)
    (hedge : tr.current_edge = some eid)
    (he : s.tracker.edges.lookup eid = some e)
    (hnoblock : e.active_incidents.any (·.is_blocking) = false)
    (hroute : tr.route_index < tr.route.length) :
    (∀ u : ℚ, actualSpeed e s.tracker.weather tr.delay_seconds s.cfg.speed_variation u =
      max 20 (min (e.max_speed_kmh * (1 + (2 * u - 1) * s.cfg.speed_variation) *
        (if s.tracker.weather = ("snow") ∨ s.tracker.weather = ("storm") ∨
            s.tracker.weather = ("fog") then 0.8
          else if s.tracker.weather = ("rain") then 0.95 else 1) *
        (1 - (tr.delay_seconds : ℚ) / 3600)) e.max_speed_kmh)) ∧
    (tr.progress_on_edge + s.cfg.tick_interval_seconds / (e.travel_time_min * 60) < 1 →
      ∃ tr', (progressTrainOnEdge g s train_id ch).1.tracker.trains.lookup train_id =
          some tr' ∧
        tr'.progress_on_edge =
          tr.progress_on_edge + s.cfg.tick_interval_seconds / (e.travel_time_min * 60) ∧
        (progressTrainOnEdge g s train_id ch).2.arrivals = ch.arrivals) ∧
    (1 ≤ tr.progress_on_edge + s.cfg.tick_interval_seconds / (e.travel_time_min * 60) →
      (progressTrainOnEdge g s train_id ch).2.arrivals = ch.arrivals ++
        [{ train := train_id,
           station := ((tr.route.get? tr.route_index).map (·.station_name)).getD ("") }]) := by
  refine ⟨?_, ?_, ?_⟩
  · intro u
    unfold actualSpeed
    try dsimp only
    split_ifs <;> ring_nf
  · intro hlt
    unfold progressTrainOnEdge drawFloat
    simp only [htr, hedge, he, hnoblock]
    rw [if_neg (by simp)]
    try dsimp only
    by_cases hgap : |tr.current_speed_kmh -
        actualSpeed e s.tracker.weather tr.delay_seconds s.cfg.speed_variation
          (g s.ridx)| > 5
    · rw [if_pos hgap]
      try dsimp only
      rw [if_neg (not_le.mpr hlt)]
      try dsimp only
      exact ⟨_, lookup_updateTrainProgress _ train_id _ _
        (lookup_updateTrainSpeed s.tracker train_id _ tr htr), rfl, rfl⟩
    · rw [if_neg hgap]
      try dsimp only
      rw [if_neg (not_le.mpr hlt)]
      try dsimp only
      exact ⟨_, lookup_updateTrainProgress _ train_id _ _ htr, rfl, rfl⟩
  · intro hge
    unfold progressTrainOnEdge drawFloat
    simp only [htr, hedge, he, hnoblock]
    rw [if_neg (by simp)]
    try dsimp only
    by_cases hgap : |tr.current_speed_kmh -
        actualSpeed e s.tracker.weather tr.delay_seconds s.cfg.speed_variation
          (g s.ridx)| > 5
    · rw [if_pos hgap]
      try dsimp only
      rw [if_pos hge]
      try dsimp only
      unfold trainArrives
      rw [lookup_updateTrainSpeed s.tracker train_id _ tr htr]
      try dsimp only
      rw [if_neg (not_le.mpr hroute)]
      rw [apply_ite Prod.snd]
      simp
    · rw [if_neg hgap]
      try dsimp only
      rw [if_pos hge]
      try dsimp only
      unfold trainArrives
      rw [htr]
      try dsimp only
      rw [if_neg (not_le.mpr hroute)]
      rw [apply_ite Prod.snd]
      simp

/-- A two-stop route A → B (test fixture). -/
def fixtureRoute : List RouteStop :=
  [{ station_name := ("A"), station_order := 0, lat := 45, lon := 9,
     distance_from_previous_km := 0 },
   { station_name := ("B"), station_order := 1, lat := 45, lon := 10,
     distance_from_previous_km := 12 }]

/-- A train rolling mid-edge on an unblocked edge (test fixture). -/
def fixtureRollingTrain : Train :=
  { train_id := ("T2")
    priority := 1
    route := fixtureRoute
    route_index := 1
    status := TrainStatus.on_time
    current_position_type := PositionType.edge
    current_station := ("A")
    current_edge := some ("E1")
    progress_on_edge := 1/4
    current_speed_kmh := 80
    delay_seconds := 0
    is_holding := false }

/-- An unblocked edge A → B (test fixture). -/
def fixtureFreeEdge : Edge :=
  { source := ("A")
    target := ("B")
    travel_time_min := 5
    max_speed_kmh := 120
    current_load := 1
    active_incidents := [] }

/-- A simulator state with one train rolling on a free edge. -/
def fixtureSimRolling : SimState :=
  { cfg := defaultSimulationConfig
    tracker :=
      { trains := [(("T2"), fixtureRollingTrain)]
        stations := []
        edges := [(("E1"), fixtureFreeEdge)]
        weather := ("clear")
        time := 0 }
    current_time := 10
    tick_count := 1
    active_trains := [("T2")]
    completed_trains := []
    registry := []
    incident_probability := 0.05
    ridx := 0 }

/-- Witness for `C6_effective_speed_and_progress`: the rolling train gains
`10/(5·60) = 1/30` progress and does not arrive. -/
theorem C6_effective_speed_and_progress_witness :
    fixtureRollingTrain.progress_on_edge +
      fixtureSimRolling.cfg.tick_interval_seconds /
        (fixtureFreeEdge.travel_time_min * 60) < 1 ∧
    ∃ tr', (progressTrainOnEdge (fun _ => 1/2) fixtureSimRolling ("T2")
        fixtureChanges).1.tracker.trains.lookup ("T2") = some tr' ∧
      tr'.progress_on_edge = fixtureRollingTrain.progress_on_edge +
        fixtureSimRolling.cfg.tick_interval_seconds /
          (fixtureFreeEdge.travel_time_min * 60) ∧
      (progressTrainOnEdge (fun _ => 1/2) fixtureSimRolling ("T2")
        fixtureChanges).2.arrivals = fixtureChanges.arrivals := by
  have hlt : fixtureRollingTrain.progress_on_edge +
      fixtureSimRolling.cfg.tick_interval_seconds /
        (fixtureFreeEdge.travel_time_min * 60) < 1 := by
    norm_num [fixtureRollingTrain, fixtureSimRolling, fixtureFreeEdge,
      defaultSimulationConfig]
  exact ⟨hlt, (C6_effective_speed_and_progress (fun _ => 1/2) fixtureSimRolling
    ("T2") fixtureChanges fixtureRollingTrain ("E1") fixtureFreeEdge
    (by rfl) (by rfl) (by rfl) (by rfl)
    (by norm_num [fixtureRollingTrain, fixtureRoute])).2.1 hlt⟩

/-!
### Claim C10 — station incidents are recorded twice, edge incidents once
-/

/-- C10: when the spawn step fires, an incident attached to an edge adds
its id once to `incidents_started`, while one attached to a station adds
it twice (the source duplicates the append). -/
theorem C10_station_incident_recorded_twice (g : ℕ → ℚ) (s : SimState)
    (ch : Changes)
    (hsp : ¬ (g s.ridx > s.incident_probability)) :
    ((g (s.ridx + 1) < 0.7 ∧ s.tracker.edges ≠ [] →
      ((maybeSpawnIncident g (s, ch)).2.incidents_started.filter
          (fun r => r.id == ("INC_") ++ toString s.tick_count ++ ("_") ++
            toString (100 + Int.toNat (ratFloor (g (s.ridx + 4) * 900))))).length =
        (ch.incidents_started.filter
          (fun r => r.id == ("INC_") ++ toString s.tick_count ++ ("_") ++
            toString (100 + Int.toNat (ratFloor (g (s.ridx + 4) * 900))))).length + 1) ∧
    (¬ (g (s.ridx + 1) < 0.7 ∧ s.tracker.edges ≠ []) → s.tracker.stations ≠ [] →
      ((maybeSpawnIncident g (s, ch)).2.incidents_started.filter
          (fun r => r.id == ("INC_") ++ toString s.tick_count ++ ("_") ++
            toString (100 + Int.toNat (ratFloor (g (s.ridx + 4) * 900))))).length =
        (ch.incidents_started.filter
          (fun r => r.id == ("INC_") ++ toString s.tick_count ++ ("_") ++
            toString (100 + Int.toNat (ratFloor (g (s.ridx + 4) * 900))))).length + 2)) := by
  constructor
  · intro hA
    unfold maybeSpawnIncident drawFloat
    try dsimp only
    rw [if_neg hsp]
    try dsimp only
    rw [if_pos hA]
    try dsimp only
    simp [List.filter_append]
  · intro hA hstations
    unfold maybeSpawnIncident drawFloat
    try dsimp only
    rw [if_neg hsp]
    try dsimp only
    rw [if_neg hA, if_pos hstations]
    try dsimp only
    simp [List.filter_append]

/-- A station-only network (test fixture). -/
def fixtureSimStationOnly : SimState :=
  { cfg := defaultSimulationConfig
    tracker :=
      { trains := []
        stations := [(("S1"),
          { name := ("S1"), max_trains_at_once := 2, blocking_behavior := ("hard"),
            current_trains := [], active_incidents := [] })]
        edges := []
        weather := ("clear")
        time := 0 }
    current_time := 10
    tick_count := 1
    active_trains := []
    completed_trains := []
    registry := []
    incident_probability := 0.05
    ridx := 0 }

/-- Witness for `C10_station_incident_recorded_twice`: a station-only
network records the new incident twice, an edge network once. -/
theorem C10_station_incident_recorded_twice_witness :
    (((maybeSpawnIncident (fun _ => 1/100) (fixtureSimStationOnly,
        fixtureChanges)).2.incidents_started.filter
        (fun r => r.id == ("INC_") ++ toString fixtureSimStationOnly.tick_count ++ ("_") ++
          toString (100 + Int.toNat (ratFloor ((1:ℚ)/100 * 900))))).length =
      (fixtureChanges.incidents_started.filter
        (fun r => r.id == ("INC_") ++ toString fixtureSimStationOnly.tick_count ++ ("_") ++
          toString (100 + Int.toNat (ratFloor ((1:ℚ)/100 * 900))))).length + 2) ∧
    (((maybeSpawnIncident (fun _ => 1/100) (fixtureSimBlocked,
        fixtureChanges)).2.incidents_started.filter
        (fun r => r.id == ("INC_") ++ toString fixtureSimBlocked.tick_count ++ ("_") ++
          toString (100 + Int.toNat (ratFloor ((1:ℚ)/100 * 900))))).length =
      (fixtureChanges.incidents_started.filter
        (fun r => r.id == ("INC_") ++ toString fixtureSimBlocked.tick_count ++ ("_") ++
          toString (100 + Int.toNat (ratFloor ((1:ℚ)/100 * 900))))).length + 1) :=
  ⟨(C10_station_incident_recorded_twice (fun _ => 1/100) fixtureSimStationOnly
      fixtureChanges (by norm_num [fixtureSimStationOnly])).2
      (by simp [fixtureSimStationOnly]) (by simp [fixtureSimStationOnly]),
    (C10_station_incident_recorded_twice (fun _ => 1/100) fixtureSimBlocked
      fixtureChanges (by norm_num [fixtureSimBlocked])).1
      ⟨by norm_num [fixtureSimBlocked], by simp [fixtureSimBlocked]⟩⟩

/-!
### Claims C8 and C1 — tick-step order; wall-clock entropy in the records

The per-step lemmas below show that no step after the clock advance writes
the `tick` or `time` fields of the change record, so the record emitted by
`tick()` carries exactly the advanced clock — which is seeded from
`datetime.now()` at construction.
-/

theorem foldl_preserve {α β : Type _} (f : β → α → β) (P : β → Prop)
    (h : ∀ b a, P b → P (f b a)) :
    ∀ (l : List α) (b : β), P b → P (l.foldl f b) := by
  intro l
  induction l with
  | nil => exact fun b hb => hb
  | cons a t ih => exact fun b hb => ih _ (h b a hb)

theorem updateWeather_preserves (g : ℕ → ℚ) (sc : SimState × Changes) :
    (updateWeather g sc).2.tick = sc.2.tick ∧
    (updateWeather g sc).2.time = sc.2.time := by
  obtain ⟨s, ch⟩ := sc
  unfold updateWeather drawFloat
  try dsimp only
  split_ifs <;> exact ⟨rfl, rfl⟩

theorem updateIncidents_preserves (g : ℕ → ℚ) (sc : SimState × Changes) :
    (updateIncidents g sc).2.tick = sc.2.tick ∧
    (updateIncidents g sc).2.time = sc.2.time := by
  obtain ⟨s, ch⟩ := sc
  unfold updateIncidents
  try dsimp only
  generalize s.registry.foldl _ _ = pr
  obtain ⟨l, s'⟩ := pr
  try dsimp only
  refine foldl_preserve _ (fun x => x.2.tick = ch.tick ∧ x.2.time = ch.time)
    ?_ l (s', ch) ⟨rfl, rfl⟩
  intro b a hb
  exact ⟨hb.1, hb.2⟩

theorem maybeSpawnIncident_preserves (g : ℕ → ℚ) (sc : SimState × Changes) :
    (maybeSpawnIncident g sc).2.tick = sc.2.tick ∧
    (maybeSpawnIncident g sc).2.time = sc.2.time := by
  obtain ⟨s, ch⟩ := sc
  unfold maybeSpawnIncident drawFloat
  try dsimp only
  split_ifs <;> exact ⟨rfl, rfl⟩

theorem completeTrain_changes_free (s : SimState) (tid : String) :
    (completeTrain s tid).tick_count = s.tick_count := rfl

theorem trainArrives_preserves (s : SimState) (tid : String) (ch : Changes) :
    (trainArrives s tid ch).2.tick = ch.tick ∧
    (trainArrives s tid ch).2.time = ch.time := by
  unfold trainArrives
  try dsimp only
  split
  · exact ⟨rfl, rfl⟩
  · split_ifs <;> exact ⟨rfl, rfl⟩

theorem departAndRecord_preserves (s : SimState) (ch : Changes)
    (tid ns : String) :
    (departAndRecord s ch tid ns).2.tick = ch.tick ∧
    (departAndRecord s ch tid ns).2.time = ch.time := by
  unfold departAndRecord
  try dsimp only
  split <;> exact ⟨rfl, rfl⟩

theorem progressTrainOnEdge_preserves (g : ℕ → ℚ) (s : SimState)
    (tid : String) (ch : Changes) :
    (progressTrainOnEdge g s tid ch).2.tick = ch.tick ∧
    (progressTrainOnEdge g s tid ch).2.time = ch.time := by
  unfold progressTrainOnEdge drawFloat
  try dsimp only
  split
  · exact ⟨rfl, rfl⟩
  · split
    · exact ⟨rfl, rfl⟩
    · split
      · exact ⟨rfl, rfl⟩
      · split_ifs <;>
          first
            | exact ⟨rfl, rfl⟩
            | exact ⟨(trainArrives_preserves _ _ _).1, (trainArrives_preserves _ _ _).2⟩

theorem processOneTrain_preserves (g : ℕ → ℚ) (sc : SimState × Changes)
    (tid : String) :
    (processOneTrain g sc tid).2.tick = sc.2.tick ∧
    (processOneTrain g sc tid).2.time = sc.2.time := by
  obtain ⟨s, ch⟩ := sc
  unfold processOneTrain shouldTrainDepart drawFloat
  try dsimp only
  split
  · exact ⟨rfl, rfl⟩
  · split
    · split_ifs <;>
        first
          | exact ⟨rfl, rfl⟩
          | (split <;> try exact ⟨rfl, rfl⟩) <;>
            first
              | exact ⟨rfl, rfl⟩
              | (split_ifs <;>
                  first
                    | exact ⟨rfl, rfl⟩
                    | exact ⟨(departAndRecord_preserves _ _ _ _).1,
                        (departAndRecord_preserves _ _ _ _).2⟩
                    | (split <;>
                        first
                          | (split_ifs <;>
                              first
                                | exact ⟨rfl, rfl⟩
                                | exact ⟨(departAndRecord_preserves _ _ _ _).1,
                                    (departAndRecord_preserves _ _ _ _).2⟩)
                          | exact ⟨(departAndRecord_preserves _ _ _ _).1,
                              (departAndRecord_preserves _ _ _ _).2⟩))
    · exact ⟨(progressTrainOnEdge_preserves _ _ _ _).1,
        (progressTrainOnEdge_preserves _ _ _ _).2⟩
    · exact ⟨rfl, rfl⟩

theorem processTrains_preserves (g : ℕ → ℚ) (sc : SimState × Changes) :
    (processTrains g sc).2.tick = sc.2.tick ∧
    (processTrains g sc).2.time = sc.2.time := by
  unfold processTrains
  exact foldl_preserve _ (fun x => x.2.tick = sc.2.tick ∧ x.2.time = sc.2.time)
    (fun b a hb => ⟨((processOneTrain_preserves g b a).1).trans hb.1,
      ((processOneTrain_preserves g b a).2).trans hb.2⟩)
    sc.1.active_trains sc ⟨rfl, rfl⟩

theorem introduceRandomDelays_preserves (g : ℕ → ℚ) (sc : SimState × Changes) :
    (introduceRandomDelays g sc).2.tick = sc.2.tick ∧
    (introduceRandomDelays g sc).2.time = sc.2.time := by
  obtain ⟨s, ch⟩ := sc
  unfold introduceRandomDelays drawFloat
  try dsimp only
  split_ifs <;> try exact ⟨rfl, rfl⟩
  all_goals split <;> try exact ⟨rfl, rfl⟩
  all_goals split_ifs <;> exact ⟨rfl, rfl⟩

theorem maybeSpawnTrains_preserves (g : ℕ → ℚ) (sc : SimState × Changes) :
    (maybeSpawnTrains g sc).2.tick = sc.2.tick ∧
    (maybeSpawnTrains g sc).2.time = sc.2.time := by
  obtain ⟨s, ch⟩ := sc
  unfold maybeSpawnTrains drawFloat
  try dsimp only
  split_ifs <;> try exact ⟨rfl, rfl⟩
  all_goals split <;> try exact ⟨rfl, rfl⟩
  all_goals split_ifs <;> exact ⟨rfl, rfl⟩

/-- The change record emitted by `tick()` carries the advanced clock: no
later step writes `tick` or `time`. -/
theorem tick_record_clock (g : ℕ → ℚ) (s : SimState) :
    (tick g s).2.tick = s.tick_count + 1 ∧
    (tick g s).2.time = s.current_time + s.cfg.tick_interval_seconds := by
  have h6 := maybeSpawnTrains_preserves g (introduceRandomDelays g (processTrains g
    (maybeSpawnIncident g (updateIncidents g (updateWeather g
      (advanceClock s, initChanges (advanceClock s)))))))
  have h5 := introduceRandomDelays_preserves g (processTrains g
    (maybeSpawnIncident g (updateIncidents g (updateWeather g
      (advanceClock s, initChanges (advanceClock s))))))
  have h4 := processTrains_preserves g
    (maybeSpawnIncident g (updateIncidents g (updateWeather g
      (advanceClock s, initChanges (advanceClock s)))))
  have h3 := maybeSpawnIncident_preserves g (updateIncidents g (updateWeather g
    (advanceClock s, initChanges (advanceClock s))))
  have h2 := updateIncidents_preserves g (updateWeather g
    (advanceClock s, initChanges (advanceClock s)))
  have h1 := updateWeather_preserves g (advanceClock s, initChanges (advanceClock s))
  constructor
  · exact (((((h6.1.trans h5.1).trans h4.1).trans h3.1).trans h2.1).trans h1.1).trans rfl
  · exact (((((h6.2.trans h5.2).trans h4.2).trans h3.2).trans h2.2).trans h1.2).trans rfl

/-- C8: `tick()` executes exactly the seven contractual steps in order —
clock advance and tracker notification, weather update, incident
lifecycle, incident spawn, per-active-train step, delay injection, train
spawn — and the emitted change record reflects the advanced clock. -/
theorem C8_tick_step_order (g : ℕ → ℚ) (s : SimState) :
    tick g s =
      maybeSpawnTrains g (introduceRandomDelays g (processTrains g
        (maybeSpawnIncident g (updateIncidents g (updateWeather g
          (advanceClock s, initChanges (advanceClock s))))))) ∧
    advanceClock s = { s with
      tick_count := s.tick_count + 1
      current_time := s.current_time + s.cfg.tick_interval_seconds
      tracker := trackerUpdateTime s.tracker
        (s.current_time + s.cfg.tick_interval_seconds) } ∧
    (tick g s).2.tick = s.tick_count + 1 ∧
    (tick g s).2.time = s.current_time + s.cfg.tick_interval_seconds :=
  ⟨rfl, rfl, (tick_record_clock g s).1, (tick_record_clock g s).2⟩

/-- An empty tracker state (test fixture). -/
def fixtureNetEmpty : NetState :=
  { trains := [], stations := [], edges := [], weather := ("clear"), time := 0 }

/-- C1: the engine is *not* a pure function of `(snapshot, scenario, seed,
max_ticks)` — `MockSimulator.__init__` reads `datetime.now()` into
`current_time`, which is stamped into every per-tick change record's
`time` field, so two runs with identical seed, scenario and snapshot that
start at different wall-clock instants produce different records already
at tick 1 (and `if self.config.random_seed:` never seeds for seed 0). -/
theorem C1_wall_clock_in_change_records :
    (tick (fun _ => 1/2) (mkSimulator fixtureNetEmpty defaultSimulationConfig 0)).2.time =
      0 + 10 ∧
    (tick (fun _ => 1/2) (mkSimulator fixtureNetEmpty defaultSimulationConfig 1)).2.time =
      1 + 10 ∧
    (tick (fun _ => 1/2) (mkSimulator fixtureNetEmpty defaultSimulationConfig 0)).2 ≠
      (tick (fun _ => 1/2) (mkSimulator fixtureNetEmpty defaultSimulationConfig 1)).2 := by
  have h0 := (tick_record_clock (fun _ => 1/2)
    (mkSimulator fixtureNetEmpty defaultSimulationConfig 0)).2
  have h1 := (tick_record_clock (fun _ => 1/2)
    (mkSimulator fixtureNetEmpty defaultSimulationConfig 1)).2
  rw [show (mkSimulator fixtureNetEmpty defaultSimulationConfig 0).current_time = 0
      from rfl] at h0
  rw [show (mkSimulator fixtureNetEmpty
      defaultSimulationConfig 0).cfg.tick_interval_seconds = 10 from rfl] at h0
  rw [show (mkSimulator fixtureNetEmpty defaultSimulationConfig 1).current_time = 1
      from rfl] at h1
  rw [show (mkSimulator fixtureNetEmpty
      defaultSimulationConfig 1).cfg.tick_interval_seconds = 10 from rfl] at h1
  refine ⟨h0, h1, ?_⟩
  intro h
  have := congrArg Changes.time h
  rw [h0, h1] at this
  norm_num at this
